import Mathlib

/-!
# RepoClinic orchestration core: a shallow embedding

This file embeds the orchestration core of the RepoClinic repository
(`repoclinic/agents/executor.py`, `repoclinic/resilience/retry.py`,
`repoclinic/flow/repoclinic_flow.py`, `repoclinic/flow/state.py`,
`repoclinic/flow/transition_store.py`, `repoclinic/schemas/*`) and proves the
frozen claims about it.

Modelling conventions:
* Python `float` values (finding confidence, backoff seconds) are embedded as `ℚ`.
* Python exceptions are embedded as `Except String` carrying the exception text.
* Python `sorted` (a stable merge sort) is embedded as `List.mergeSort`.
* Collaborators the spec scopes out as glue (secret redaction, the sha256-based
  finding-id digest, the jitter PRNG stream, the tracer) are environment
  parameters; theorems quantify over them.
* The scanner output payload is opaque to the orchestrator, so the flow is
  parameterized over its type `σ`.
-/

/-! ## Enums (`repoclinic/schemas/enums.py`) -/

inductive Severity where
  | low
  | medium
  | high
  | critical
deriving DecidableEq

/-- The `.value` string of `Severity` members. -/
def Severity.value : Severity → String
  | .low => "Low"
  | .medium => "Medium"
  | .high => "High"
  | .critical => "Critical"

inductive Priority where
  | P0
  | P1
  | P2
deriving DecidableEq

inductive FindingCategory where
  | architecture
  | security
  | performance
deriving DecidableEq

/-- The `.value` string of `FindingCategory` members. -/
def FindingCategory.value : FindingCategory → String
  | .architecture => "architecture"
  | .security => "security"
  | .performance => "performance"

inductive FindingStatus where
  | confirmed
  | suspected
  | notApplicable
  | insufficientEvidence
  | failed
deriving DecidableEq

inductive ArchitectureType where
  | monolith
  | microservices
  | modularMonolith
  | unknown
deriving DecidableEq

inductive FlowNodeState where
  | pending
  | running
  | completed
  | failed
deriving DecidableEq

/-- The `.value` string of `FlowNodeState` members. -/
def FlowNodeState.value : FlowNodeState → String
  | .pending => "pending"
  | .running => "running"
  | .completed => "completed"
  | .failed => "failed"

/-! ## Finding and branch output schemas (`repoclinic/schemas/analysis_models.py`) -/

/-- Evidence reference used by findings (`FindingEvidence`). -/
structure FindingEvidence where
  file : String
  line_start : Int
  line_end : Int
  source : String
  rule_id : Option String
deriving DecidableEq

/-- Shared finding contract across branches (`BaseFinding`).
`confidence` is a Python float in `[0, 1]`, embedded as `ℚ`. -/
structure BaseFinding where
  id : String
  category : FindingCategory
  title : String
  description : String
  severity : Severity
  status : FindingStatus
  confidence : ℚ
  symptoms : List String
  recommendation : String
  evidence : List FindingEvidence
deriving DecidableEq

/-- Architecture module boundary (`ModuleBoundary`). -/
structure ModuleBoundary where
  name : String
  paths : List String
  responsibility : String
deriving DecidableEq

/-- Architecture branch output (`ArchitectureAgentOutput`). -/
structure ArchitectureAgentOutput where
  schema_version : String
  run_id : String
  architecture_type : ArchitectureType
  module_boundaries : List ModuleBoundary
  runtime_flow_summary : String
  findings : List BaseFinding
deriving DecidableEq

/-- Top security risk item (`SecurityRisk`). -/
structure SecurityRisk where
  issue : String
  severity : Severity
  file : String
deriving DecidableEq

/-- Security branch output (`SecurityAgentOutput`). -/
structure SecurityAgentOutput where
  schema_version : String
  run_id : String
  findings : List BaseFinding
  top_security_risks : List SecurityRisk
deriving DecidableEq

/-- Top performance risk item (`PerformanceRisk`). -/
structure PerformanceRisk where
  issue : String
  severity : Severity
  file : String
deriving DecidableEq

/-- Performance branch output (`PerformanceAgentOutput`). -/
structure PerformanceAgentOutput where
  schema_version : String
  run_id : String
  findings : List BaseFinding
  top_performance_risks : List PerformanceRisk
deriving DecidableEq

/-- Roadmap item contract (`RoadmapItem` in `repoclinic/schemas/output_models.py`).
`timeline_bucket` is a string literal type in the source. -/
structure RoadmapItem where
  priority : Priority
  task : String
  impact : String
  effort : String
  risk : String
  justification : String
  timeline_bucket : String
  depends_on : List String
deriving DecidableEq

/-! ## Roadmap synthesis (`repoclinic/agents/executor.py`) -/

/-- `SEVERITY_ORDER` dict from `executor.py`.  The dict covers every `Severity`
member, so the `.get(..., 4)` fallback in the source is unreachable. -/
def SEVERITY_ORDER : Severity → Nat
  | .critical => 0
  | .high => 1
  | .medium => 2
  | .low => 3

/-- The sort key `(SEVERITY_ORDER.get(item.severity, 4), 1 - item.confidence)`
used by `synthesize_roadmap`. -/
def findingSortKey (f : BaseFinding) : Nat × ℚ :=
  (SEVERITY_ORDER f.severity, 1 - f.confidence)

/-- Python tuple comparison is lexicographic; this is `key(x) <= key(y)`. -/
def keyTupleLe (a b : Nat × ℚ) : Bool :=
  decide (a.1 < b.1 ∨ (a.1 = b.1 ∧ a.2 ≤ b.2))

/-- Comparator fed to the stable sort in `synthesize_roadmap`. -/
def findingLe (f g : BaseFinding) : Bool :=
  keyTupleLe (findingSortKey f) (findingSortKey g)

/-- Body of the item-construction loop in `synthesize_roadmap`: severity → priority,
priority → timeline bucket, and the `RoadmapItem` construction. -/
def roadmapItemOfFinding (finding : BaseFinding) : RoadmapItem :=
  let priority : Priority :=
    if finding.severity = Severity.critical ∨ finding.severity = Severity.high then
      Priority.P0
    else if finding.severity = Severity.medium then
      Priority.P1
    else
      Priority.P2
  let timeline : String :=
    if priority = Priority.P0 then
      "immediate_1_2_days"
    else if priority = Priority.P1 then
      "short_term_1_2_weeks"
    else
      "medium_term_1_2_months"
  { priority := priority
    task := finding.recommendation
    impact := "Mitigates " ++ finding.category.value ++ " risk: " ++ finding.title
    effort := "Medium"
    risk := finding.severity.value
    justification := finding.description
    timeline_bucket := timeline
    depends_on := [finding.id] }

/-- `synthesize_roadmap` from `executor.py`: concatenate branch findings,
keep confirmed/suspected, stable-sort by `(severity_rank, 1 - confidence)`,
take the first 10, and map each finding to a roadmap item. -/
def synthesize_roadmap (architecture_output : ArchitectureAgentOutput)
    (security_output : SecurityAgentOutput)
    (performance_output : PerformanceAgentOutput) : List RoadmapItem :=
  let findings :=
    architecture_output.findings ++ security_output.findings ++
      performance_output.findings
  let actionable := findings.filter fun finding =>
    finding.status = FindingStatus.confirmed ∨ finding.status = FindingStatus.suspected
  let sorted_findings := actionable.mergeSort findingLe
  (sorted_findings.take 10).map roadmapItemOfFinding

/-! ## Failure-placeholder builders (`repoclinic/agents/executor.py`)

`_finding_id` computes a sha256 hex digest of `"{category}:{file_ref}:{seed}"`;
the digest itself is opaque string hashing, so the builders take the digest
function as a parameter (`fid`). -/

/-- `build_failed_architecture_output`. -/
def build_failed_architecture_output (fid : String → String → String → String)
    (run_id : String) (schema_version : String) (reason : String) :
    ArchitectureAgentOutput :=
  { schema_version := schema_version
    run_id := run_id
    architecture_type := ArchitectureType.unknown
    module_boundaries := []
    runtime_flow_summary := "Architecture branch failed: " ++ reason
    findings := [{
      id := fid "architecture" run_id "failed"
      category := FindingCategory.architecture
      title := "Architecture branch execution failed"
      description := reason
      severity := Severity.medium
      status := FindingStatus.failed
      confidence := 0
      symptoms := ["Architecture analysis could not complete"]
      recommendation := "Review branch execution logs and rerun."
      evidence := [] }] }

/-- `build_failed_security_output`. -/
def build_failed_security_output (fid : String → String → String → String)
    (run_id : String) (schema_version : String) (reason : String) :
    SecurityAgentOutput :=
  { schema_version := schema_version
    run_id := run_id
    findings := [{
      id := fid "security" run_id "failed"
      category := FindingCategory.security
      title := "Security branch execution failed"
      description := reason
      severity := Severity.high
      status := FindingStatus.failed
      confidence := 0
      symptoms := ["Security analysis unavailable"]
      recommendation := "Inspect branch execution failure and rerun security stage."
      evidence := [] }]
    top_security_risks := [] }

/-- `build_failed_performance_output`. -/
def build_failed_performance_output (fid : String → String → String → String)
    (run_id : String) (schema_version : String) (reason : String) :
    PerformanceAgentOutput :=
  { schema_version := schema_version
    run_id := run_id
    findings := [{
      id := fid "performance" run_id "failed"
      category := FindingCategory.performance
      title := "Performance branch execution failed"
      description := reason
      severity := Severity.medium
      status := FindingStatus.failed
      confidence := 0
      symptoms := ["Performance branch unavailable"]
      recommendation := "Inspect branch execution failure and rerun performance stage."
      evidence := [] }]
    top_performance_risks := [] }

/-! ## Retry executor (`repoclinic/resilience/retry.py`)

An operation is embedded as `op : Nat → Except String α`, giving the outcome of
its `i`-th invocation (1-indexed); exceptions are their message strings.  The
jitter PRNG stream is a parameter `jitter : Nat → ℚ`, the draw of
`jitter_fn(0.0, jitter_seconds)` taken after failed attempt `i`.  The optional
per-attempt timeout of `_run_once` only changes which exception an attempt
produces, so it is absorbed into `op`'s outcomes. -/

/-- `RetryPolicy` dataclass.  `max_attempts` is a Python int, which may be
non-positive, hence `Int`. -/
structure RetryPolicy where
  max_attempts : Int
  backoff_seconds : ℚ
  jitter_seconds : ℚ
deriving DecidableEq

/-- The errors `RetryExecutor.run` can raise: the `ValueError` guard for a bad
policy, or the wrapped `RuntimeError` after exhausting attempts (carrying the
stage name, the attempt count, and the last underlying error text). -/
inductive RetryError where
  | configError
  | wrapped (stage : String) (attempts : Int) (last : String)
deriving DecidableEq

/-- The `str()` of the raised exception. -/
def RetryError.message : RetryError → String
  | .configError => "max_attempts must be >= 1"
  | .wrapped stage attempts last =>
      stage ++ " failed after " ++ toString attempts ++ " attempt(s): " ++ last

/-- `_backoff_delay`: `max(0.0, backoff_seconds * 2^(attempt-1) + jitter_draw)`. -/
def backoff_delay (policy : RetryPolicy) (jitterDraw : ℚ) (attempt : Nat) : ℚ :=
  max 0 (policy.backoff_seconds * 2 ^ (attempt - 1) + jitterDraw)

/-- Observable outcome of one `RetryExecutor.run` call: how many times the
operation was invoked, the sleeps performed between attempts, and the returned
value or raised error. -/
structure RetryTrace (α : Type) where
  calls : Nat
  sleeps : List ℚ
  result : Except RetryError α

/-- The `for attempt in range(1, max_attempts + 1)` loop of `RetryExecutor.run`,
entered at attempt number `attempt` with `remaining` further attempts allowed
after this one (the loop guard `attempt >= max_attempts` is `remaining = 0`).
Returns the number of the last attempt made, the sleeps performed, and the
last outcome. -/
def retryLoop (op : Nat → Except String α) (delay : Nat → ℚ)
    (attempt : Nat) (remaining : Nat) (sleeps : List ℚ) :
    Nat × List ℚ × Except String α :=
  match op attempt with
  | .ok v => (attempt, sleeps, .ok v)
  | .error e =>
    match remaining with
    | 0 => (attempt, sleeps, .error e)
    | r + 1 => retryLoop op delay (attempt + 1) r (sleeps ++ [delay attempt])

/-- `RetryExecutor.run` (without the timeout wrapper, see above). -/
def RetryExecutor.run (policy : RetryPolicy) (jitter : Nat → ℚ)
    (op : Nat → Except String α) (stage_name : String) : RetryTrace α :=
  if policy.max_attempts < 1 then
    { calls := 0, sleeps := [], result := .error RetryError.configError }
  else
    let outcome :=
      retryLoop op (fun attempt => backoff_delay policy (jitter attempt) attempt)
        1 (policy.max_attempts.toNat - 1) []
    match outcome with
    | (calls, sleeps, .ok v) => { calls := calls, sleeps := sleeps, result := .ok v }
    | (calls, sleeps, .error e) =>
      { calls := calls, sleeps := sleeps,
        result := .error (RetryError.wrapped stage_name policy.max_attempts e) }

/-! ## Flow state (`repoclinic/flow/state.py`)

Python dicts (`branch_statuses`, `branch_failures`) keep insertion order and
update keys in place; they are embedded as association lists with
`dictSet`/`dictGet` below.  Per-node output payloads are stored as structured
values rather than JSON dicts; `model_dump` followed by `model_validate` is the
identity on them, and a missing payload (`None`, validated against `{}`,
which raises) is `none`. -/

/-- Python-dict style lookup: value of the first (unique) binding of the key. -/
def dictGet : List (String × String) → String → Option String
  | [], _ => none
  | p :: rest, k => if p.1 = k then some p.2 else dictGet rest k

/-- Python-dict style assignment: update the key in place if present
(keeping its position), else append the new binding at the end. -/
def dictSet : List (String × String) → String → String → List (String × String)
  | [], k, v => [(k, v)]
  | p :: rest, k, v => if p.1 = k then (k, v) :: rest else p :: dictSet rest k v

/-- The fields of `AnalyzeRequest` the orchestrator reads.  The remaining
request fields (source location, execution timeouts, feature flags) are only
forwarded to the scanner collaborator. -/
structure AnalyzeRequest where
  run_id : String
  schema_version : String
deriving DecidableEq

/-- The `roadmap_output` dict assembled by `run_roadmap_trigger`. -/
structure RoadmapOutput where
  schema_version : String
  run_id : String
  status : String
  items : List RoadmapItem
  branch_failures : List (String × String)
deriving DecidableEq

/-- `RepoClinicFlowState`, with the scanner payload type `σ` opaque.  The
`run_manifest` field is written only by the Runner facade after the flow ends,
never by the orchestrator, and is omitted. -/
structure FlowState (σ : Type) where
  id : String
  schema_version : String
  run_id : String
  request_payload : Option AnalyzeRequest
  provider_profile : Option String
  flow_id : String
  node_id : String
  state : FlowNodeState
  resume_token : Option String
  checkpoint_id : Option String
  completed_nodes : List String
  branch_statuses : List (String × String)
  branch_failures : List (String × String)
  scanner_output : Option σ
  architecture_output : Option ArchitectureAgentOutput
  security_output : Option SecurityAgentOutput
  performance_output : Option PerformanceAgentOutput
  roadmap_output : Option RoadmapOutput
deriving DecidableEq

/-! ## Transition log store and persistence (`repoclinic/flow/transition_store.py`)

The SQLite stores become in-memory lists ordered by insertion (`rowid` order);
the wall-clock timestamp becomes a monotone counter carried by the log. -/

/-- One row of the `flow_transitions` table. -/
structure TransitionRecord where
  run_id : String
  node_id : String
  from_state : String
  to_state : String
  timestamp : Nat
  reason : String
deriving DecidableEq

/-- One `save_state` call of the flow persistence backend, keyed by
`(flow_uuid, method_name)` and holding the full serialized state. -/
structure Snapshot (σ : Type) where
  flow_uuid : String
  method_name : String
  state_data : FlowState σ
deriving DecidableEq

/-- All externally observable side effects of one flow execution: the
transition log (for this run), the persisted snapshots, a clock for
timestamps, and how many times each side-effecting collaborator was invoked
by the retry executor. -/
structure FlowLog (σ : Type) where
  transitions : List TransitionRecord
  snapshots : List (Snapshot σ)
  clock : Nat
  scanner_calls : Nat
  architecture_calls : Nat
  security_calls : Nat
  performance_calls : Nat
deriving DecidableEq

/-- Collaborator environment of one `RepoClinicFlow` instance.  Per-attempt
collaborator outcomes are functions of the attempt number (1-indexed); the
per-attempt timeout wrapper is absorbed into those outcomes.  `redact` is
`redact_text`, `fid` is `_finding_id` (both pure string functions whose
internals the spec scopes out). -/
structure FlowEnv (σ : Type) where
  flow_id : String
  default_provider_profile : String
  redact : String → String
  fid : String → String → String → String
  policy : RetryPolicy
  jitter : Nat → ℚ
  scannerOp : AnalyzeRequest → Nat → Except String σ
  archOp : σ → Nat → Except String ArchitectureAgentOutput
  secOp : σ → Nat → Except String SecurityAgentOutput
  perfOp : σ → Nat → Except String PerformanceAgentOutput

/-- `RepoClinicFlow._mark_node_transition`: mutate the bookkeeping fields,
append the node id to `completed_nodes` on a COMPLETED transition when absent,
record one transition row, and persist one full-state snapshot. -/
def mark_node_transition (env : FlowEnv σ) (st : FlowState σ) (log : FlowLog σ)
    (node_id : String) (to_state : FlowNodeState) (reason : String) :
    FlowState σ × FlowLog σ :=
  let from_state := st.state.value
  let st' : FlowState σ := { st with
    flow_id := env.flow_id
    node_id := node_id
    state := to_state
    checkpoint_id := some (st.run_id ++ ":" ++ node_id)
    resume_token := some st.id
    completed_nodes :=
      if to_state = FlowNodeState.completed ∧ node_id ∉ st.completed_nodes then
        st.completed_nodes ++ [node_id]
      else
        st.completed_nodes }
  let row : TransitionRecord := {
    run_id := if st'.run_id = "" then st'.id else st'.run_id
    node_id := node_id
    from_state := from_state
    to_state := to_state.value
    timestamp := log.clock
    reason := env.redact reason }
  let log' : FlowLog σ := { log with
    transitions := log.transitions ++ [row]
    snapshots := log.snapshots ++
      [{ flow_uuid := st'.id, method_name := node_id, state_data := st' }]
    clock := log.clock + 1 }
  (st', log')

/-! ## Flow node handlers (`repoclinic/flow/repoclinic_flow.py`)

A raised exception is `Except.error (message, state, log)`: the exception text
together with the mutations already performed before the raise.  Pydantic
validation failures get an opaque message via `validationError`. -/

/-- Stand-in for the text of a pydantic `ValidationError` raised by
`Model.model_validate({})` on a model with required fields. -/
def validationError (model : String) : String :=
  "validation error: " ++ model

/-- Result alias for a handler that can raise. -/
abbrev NodeResult (σ out : Type) :=
  Except (String × FlowState σ × FlowLog σ) (FlowState σ × FlowLog σ × out)

/-- Return value of the `start` node: either the short-circuit
`{"status": "already_completed", "run_id": ...}` dict or `{"run_id": ...}`. -/
inductive StartReturn where
  | alreadyCompleted (run_id : String)
  | validated (run_id : String)
deriving DecidableEq

/-- `RepoClinicFlow.validate_request_and_state` (the `start` node). -/
def validate_request_and_state (env : FlowEnv σ) (st : FlowState σ)
    (log : FlowLog σ) : NodeResult σ StartReturn :=
  if "start" ∈ st.completed_nodes then
    .ok (st, log, StartReturn.alreadyCompleted st.run_id)
  else
    match st.request_payload with
    | none =>
      .error ("request_payload is required in flow state before kickoff execution",
        st, log)
    | some request =>
      let profile :=
        match st.provider_profile with
        | some p => if p = "" then env.default_provider_profile else p
        | none => env.default_provider_profile
      let st := { st with
        schema_version := request.schema_version
        run_id := request.run_id
        id := request.run_id
        provider_profile := some profile }
      let (st, log) := mark_node_transition env st log "start"
        FlowNodeState.completed "Validated analyze request and provider profile"
      .ok (st, log, StartReturn.validated st.run_id)

/-- `RepoClinicFlow.run_scanner_stage`.  The stored payload is returned
directly; a missing payload models the `or {}` fallback dict. -/
def run_scanner_stage (env : FlowEnv σ) (st : FlowState σ) (log : FlowLog σ) :
    NodeResult σ (Option σ) :=
  if "scanner" ∈ st.completed_nodes then
    .ok (st, log, st.scanner_output)
  else
    let (st, log) := mark_node_transition env st log "scanner"
      FlowNodeState.running "Executing scanner stage"
    match st.request_payload with
    | none =>
      -- `AnalyzeRequest.model_validate(None)` raises inside the try block.
      let e := validationError "AnalyzeRequest"
      let st := { st with
        branch_statuses := dictSet st.branch_statuses "scanner" "failed"
        branch_failures := dictSet st.branch_failures "scanner" (env.redact e) }
      let (st, log) := mark_node_transition env st log "scanner"
        FlowNodeState.failed ("Scanner stage failed: " ++ env.redact e)
      .error (e, st, log)
    | some request =>
      let tr := RetryExecutor.run env.policy env.jitter (env.scannerOp request)
        "scanner-stage"
      let log := { log with scanner_calls := log.scanner_calls + tr.calls }
      match tr.result with
      | .ok scanner_output =>
        let st := { st with
          scanner_output := some scanner_output
          branch_statuses := dictSet st.branch_statuses "scanner" "completed" }
        let (st, log) := mark_node_transition env st log "scanner"
          FlowNodeState.completed "Scanner stage completed"
        .ok (st, log, st.scanner_output)
      | .error exc =>
        let e := exc.message
        let st := { st with
          branch_statuses := dictSet st.branch_statuses "scanner" "failed"
          branch_failures := dictSet st.branch_failures "scanner" (env.redact e) }
        let (st, log) := mark_node_transition env st log "scanner"
          FlowNodeState.failed ("Scanner stage failed: " ++ env.redact e)
        .error (e, st, log)

/-- `RepoClinicFlow.run_architecture_branch`.  The `ScannerOutput.model_validate`
call sits outside the try block, so a missing scanner payload raises past the
node; collaborator failure inside the try block is converted to the
deterministic failure placeholder. -/
def run_architecture_branch (env : FlowEnv σ) (st : FlowState σ)
    (log : FlowLog σ) : NodeResult σ (Option ArchitectureAgentOutput) :=
  if "architecture" ∈ st.completed_nodes then
    .ok (st, log, st.architecture_output)
  else
    let (st, log) := mark_node_transition env st log "architecture"
      FlowNodeState.running "Executing architecture branch"
    match st.scanner_output with
    | none => .error (validationError "ScannerOutput", st, log)
    | some scanner_output =>
      let tr := RetryExecutor.run env.policy env.jitter (env.archOp scanner_output)
        "architecture-branch"
      let log := { log with architecture_calls := log.architecture_calls + tr.calls }
      let (st, output, node_state, reason) :=
        match tr.result with
        | .ok output =>
          ({ st with branch_statuses := dictSet st.branch_statuses "architecture" "completed" },
            output, FlowNodeState.completed, "Architecture branch completed")
        | .error exc =>
          let redacted_error := env.redact exc.message
          ({ st with
              branch_statuses := dictSet st.branch_statuses "architecture" "failed"
              branch_failures := dictSet st.branch_failures "architecture" redacted_error },
            build_failed_architecture_output env.fid st.run_id st.schema_version
              redacted_error,
            FlowNodeState.failed, "Architecture branch failed: " ++ redacted_error)
      let st := { st with architecture_output := some output }
      let (st, log) := mark_node_transition env st log "architecture" node_state reason
      .ok (st, log, st.architecture_output)

/-- `RepoClinicFlow.run_security_branch`. -/
def run_security_branch (env : FlowEnv σ) (st : FlowState σ)
    (log : FlowLog σ) : NodeResult σ (Option SecurityAgentOutput) :=
  if "security" ∈ st.completed_nodes then
    .ok (st, log, st.security_output)
  else
    let (st, log) := mark_node_transition env st log "security"
      FlowNodeState.running "Executing security branch"
    match st.scanner_output with
    | none => .error (validationError "ScannerOutput", st, log)
    | some scanner_output =>
      let tr := RetryExecutor.run env.policy env.jitter (env.secOp scanner_output)
        "security-branch"
      let log := { log with security_calls := log.security_calls + tr.calls }
      let (st, output, node_state, reason) :=
        match tr.result with
        | .ok output =>
          ({ st with branch_statuses := dictSet st.branch_statuses "security" "completed" },
            output, FlowNodeState.completed, "Security branch completed")
        | .error exc =>
          let redacted_error := env.redact exc.message
          ({ st with
              branch_statuses := dictSet st.branch_statuses "security" "failed"
              branch_failures := dictSet st.branch_failures "security" redacted_error },
            build_failed_security_output env.fid st.run_id st.schema_version
              redacted_error,
            FlowNodeState.failed, "Security branch failed: " ++ redacted_error)
      let st := { st with security_output := some output }
      let (st, log) := mark_node_transition env st log "security" node_state reason
      .ok (st, log, st.security_output)

/-- `RepoClinicFlow.run_performance_branch`. -/
def run_performance_branch (env : FlowEnv σ) (st : FlowState σ)
    (log : FlowLog σ) : NodeResult σ (Option PerformanceAgentOutput) :=
  if "performance" ∈ st.completed_nodes then
    .ok (st, log, st.performance_output)
  else
    let (st, log) := mark_node_transition env st log "performance"
      FlowNodeState.running "Executing performance branch"
    match st.scanner_output with
    | none => .error (validationError "ScannerOutput", st, log)
    | some scanner_output =>
      let tr := RetryExecutor.run env.policy env.jitter (env.perfOp scanner_output)
        "performance-branch"
      let log := { log with performance_calls := log.performance_calls + tr.calls }
      let (st, output, node_state, reason) :=
        match tr.result with
        | .ok output =>
          ({ st with branch_statuses := dictSet st.branch_statuses "performance" "completed" },
            output, FlowNodeState.completed, "Performance branch completed")
        | .error exc =>
          let redacted_error := env.redact exc.message
          ({ st with
              branch_statuses := dictSet st.branch_statuses "performance" "failed"
              branch_failures := dictSet st.branch_failures "performance" redacted_error },
            build_failed_performance_output env.fid st.run_id st.schema_version
              redacted_error,
            FlowNodeState.failed, "Performance branch failed: " ++ redacted_error)
      let st := { st with performance_output := some output }
      let (st, log) := mark_node_transition env st log "performance" node_state reason
      .ok (st, log, st.performance_output)

/-- `RepoClinicFlow.run_roadmap_trigger`.  The entire body after the RUNNING
transition sits in a try/except that catches every exception, so the handler
is total: it never raises. -/
def run_roadmap_trigger (env : FlowEnv σ) (st : FlowState σ) (log : FlowLog σ) :
    FlowState σ × FlowLog σ × Option RoadmapOutput :=
  if "roadmap" ∈ st.completed_nodes then
    (st, log, st.roadmap_output)
  else
    let (st, log) := mark_node_transition env st log "roadmap"
      FlowNodeState.running "Executing roadmap synthesis trigger"
    let deserialized :
        Except String
          (ArchitectureAgentOutput × SecurityAgentOutput × PerformanceAgentOutput) :=
      match st.architecture_output with
      | none => .error (validationError "ArchitectureAgentOutput")
      | some architecture_output =>
        match st.security_output with
        | none => .error (validationError "SecurityAgentOutput")
        | some security_output =>
          match st.performance_output with
          | none => .error (validationError "PerformanceAgentOutput")
          | some performance_output =>
            .ok (architecture_output, security_output, performance_output)
    match deserialized with
    | .ok (architecture_output, security_output, performance_output) =>
      let roadmap_items :=
        synthesize_roadmap architecture_output security_output performance_output
      let degraded :=
        ["architecture", "security", "performance"].any fun branch =>
          dictGet st.branch_statuses branch = some "failed"
      let status := if degraded then "degraded" else "completed"
      let st := { st with branch_statuses := dictSet st.branch_statuses "roadmap" status }
      let output : RoadmapOutput := {
        schema_version := st.schema_version
        run_id := st.run_id
        status := status
        items := roadmap_items
        branch_failures := st.branch_failures }
      let st := { st with roadmap_output := some output }
      let (st, log) := mark_node_transition env st log "roadmap"
        FlowNodeState.completed "Roadmap trigger completed"
      (st, log, st.roadmap_output)
    | .error exc =>
      let redacted_error := env.redact exc
      let st := { st with
        branch_statuses := dictSet st.branch_statuses "roadmap" "failed"
        branch_failures := dictSet st.branch_failures "roadmap" redacted_error }
      let output : RoadmapOutput := {
        schema_version := st.schema_version
        run_id := st.run_id
        status := "failed"
        items := []
        branch_failures := st.branch_failures }
      let st := { st with roadmap_output := some output }
      let (st, log) := mark_node_transition env st log "roadmap"
        FlowNodeState.failed ("Roadmap trigger failed: " ++ redacted_error)
      (st, log, st.roadmap_output)

/-! ## Flow composition

CrewAI schedules `start → scanner → fan-out branches → and_(...) → roadmap`;
the three branches carry no mutual ordering, so the composition takes the
branch execution order as a parameter.  An exception raised by a node aborts
the run (downstream listeners never fire), which the `Except` bind models. -/

/-- The three fan-out branch nodes. -/
inductive BranchTag where
  | architecture
  | security
  | performance
deriving DecidableEq

/-- Node id of a branch. -/
def BranchTag.nodeId : BranchTag → String
  | .architecture => "architecture"
  | .security => "security"
  | .performance => "performance"

/-- Dispatch one branch node, discarding its returned payload. -/
def runBranch (env : FlowEnv σ) (tag : BranchTag) (st : FlowState σ)
    (log : FlowLog σ) : Except (String × FlowState σ × FlowLog σ) (FlowState σ × FlowLog σ) :=
  match tag with
  | .architecture => (run_architecture_branch env st log).map fun r => (r.1, r.2.1)
  | .security => (run_security_branch env st log).map fun r => (r.1, r.2.1)
  | .performance => (run_performance_branch env st log).map fun r => (r.1, r.2.1)

/-- Run the fan-out branches in the given order. -/
def runBranchList (env : FlowEnv σ) : List BranchTag → FlowState σ → FlowLog σ →
    Except (String × FlowState σ × FlowLog σ) (FlowState σ × FlowLog σ)
  | [], st, log => .ok (st, log)
  | tag :: rest, st, log =>
    match runBranch env tag st log with
    | .error err => .error err
    | .ok (st, log) => runBranchList env rest st log

/-- One full orchestrator execution (`Flow.kickoff` over the node graph):
start, scanner, the three branches in the given order, then the fan-in
roadmap trigger.  A raised exception aborts the run. -/
def runFlow (env : FlowEnv σ) (order : List BranchTag) (st : FlowState σ)
    (log : FlowLog σ) :
    Except (String × FlowState σ × FlowLog σ) (FlowState σ × FlowLog σ) :=
  match validate_request_and_state env st log with
  | .error err => .error err
  | .ok (st, log, _) =>
    match run_scanner_stage env st log with
    | .error err => .error err
    | .ok (st, log, _) =>
      match runBranchList env order st log with
      | .error err => .error err
      | .ok (st, log) =>
        match run_roadmap_trigger env st log with
        | (st, log, _) => .ok (st, log)

/-- The state `Flow.kickoff` starts from for a fresh run: the `kickoff` inputs
dict of `RepoClinicFlowRunner.kickoff` merged over the `RepoClinicFlowState`
field defaults. -/
def kickoffState (σ : Type) (request : AnalyzeRequest) (profile : String) :
    FlowState σ :=
  { id := request.run_id
    schema_version := request.schema_version
    run_id := request.run_id
    request_payload := some request
    provider_profile := some profile
    flow_id := "repoclinic-flow"
    node_id := "start"
    state := FlowNodeState.pending
    resume_token := none
    checkpoint_id := none
    completed_nodes := []
    branch_statuses := [("scanner", "pending"), ("architecture", "pending"),
      ("security", "pending"), ("performance", "pending"), ("roadmap", "pending")]
    branch_failures := []
    scanner_output := none
    architecture_output := none
    security_output := none
    performance_output := none
    roadmap_output := none }

/-- An empty observation log (fresh transition store contents for this run,
no snapshots, zero collaborator calls). -/
def emptyLog (σ : Type) : FlowLog σ :=
  { transitions := [], snapshots := [], clock := 0, scanner_calls := 0,
    architecture_calls := 0, security_calls := 0, performance_calls := 0 }

/-! ## Retry executor lemmas -/

/-- If the operation fails at attempts `a .. k-1` and succeeds at attempt
`k ≤ a + remaining`, the retry loop entered at attempt `a` stops at attempt `k`
with the delays for attempts `a .. k-1` appended to the sleeps. -/
theorem retryLoop_ok (op : Nat → Except String α) (delay : Nat → ℚ)
    (v : α) (k : Nat) :
    ∀ (remaining a : Nat) (sleeps : List ℚ), a ≤ k → k ≤ a + remaining →
    (∀ i, a ≤ i → i < k → ∃ e, op i = Except.error e) →
    op k = Except.ok v →
    retryLoop op delay a remaining sleeps =
      (k, sleeps ++ (List.range' a (k - a)).map delay, Except.ok v) := by
  intro remaining
  induction remaining with
  | zero =>
    intro a sleeps hak hka _hfail hsucc
    have hk : a = k := by omega
    subst hk
    rw [retryLoop.eq_def, hsucc]
    simp
  | succ r ih =>
    intro a sleeps hak hka hfail hsucc
    by_cases hk : a = k
    · subst hk
      rw [retryLoop.eq_def, hsucc]
      simp
    · have hlt : a < k := by omega
      obtain ⟨e, he⟩ := hfail a le_rfl hlt
      rw [retryLoop.eq_def, he]
      simp only []
      rw [ih (a + 1) (sleeps ++ [delay a]) (by omega) (by omega)
        (fun i h1 h2 => hfail i (by omega) h2) hsucc]
      have hrange : List.range' a (k - a) = a :: List.range' (a + 1) (k - (a + 1)) := by
        have h1 : k - a = (k - (a + 1)) + 1 := by omega
        rw [h1, List.range'_succ]
      rw [hrange]
      simp

/-- If the operation fails at every attempt `a .. a + remaining`, the retry
loop stops at attempt `a + remaining` with that attempt's error. -/
theorem retryLoop_error (op : Nat → Except String α) (delay : Nat → ℚ) :
    ∀ (remaining a : Nat) (sleeps : List ℚ),
    (∀ i, a ≤ i → i ≤ a + remaining → ∃ e, op i = Except.error e) →
    ∃ sl last, op (a + remaining) = Except.error last ∧
      retryLoop op delay a remaining sleeps =
        (a + remaining, sl, Except.error last) := by
  intro remaining
  induction remaining with
  | zero =>
    intro a sleeps hfail
    obtain ⟨e, he⟩ := hfail a le_rfl (by omega)
    rw [retryLoop.eq_def, he]
    refine ⟨sleeps, e, by simpa using he, ?_⟩
    simp
  | succ r ih =>
    intro a sleeps hfail
    obtain ⟨e, he⟩ := hfail a le_rfl (by omega)
    rw [retryLoop.eq_def, he]
    simp only []
    obtain ⟨sl, last, hlast, heq⟩ := ih (a + 1) (sleeps ++ [delay a])
      (fun i h1 h2 => hfail i (by omega) (by omega))
    refine ⟨sl, last, ?_, ?_⟩
    · rw [show a + (r + 1) = (a + 1) + r by omega]
      exact hlast
    · rw [heq]
      congr 1
      omega

/-- C7: for every retry policy with `max_attempts ≥ 1` and every operation that
fails on its first `k-1` invocations and succeeds on the `k`-th
(`k ≤ max_attempts`), `RetryExecutor.run` returns the `k`-th invocation's value
after exactly `k` invocations, and the sleep before attempt `j+1`
(`1 ≤ j < k`) is `max(0, backoff_seconds * 2^(j-1) + jitter_j)` with `jitter_j`
the draw of `uniform(0, jitter_seconds)` taken after attempt `j`. -/
theorem C7_retry_success_after_failures (policy : RetryPolicy) (jitter : Nat → ℚ)
    (op : Nat → Except String α) (stage_name : String) (v : α) (k : Nat)
    (hk1 : 1 ≤ k) (hk : (k : Int) ≤ policy.max_attempts)
    (hfail : ∀ i : Nat, 1 ≤ i → i < k → ∃ e, op i = Except.error e)
    (hsucc : op k = Except.ok v) :
    RetryExecutor.run policy jitter op stage_name =
      { calls := k
        sleeps := (List.range (k - 1)).map fun j =>
          max 0 (policy.backoff_seconds * 2 ^ j + jitter (j + 1))
        result := Except.ok v } := by
  unfold RetryExecutor.run
  rw [if_neg (by omega)]
  rw [retryLoop_ok op _ v k (policy.max_attempts.toNat - 1) 1 [] hk1 (by omega)
    hfail hsucc]
  simp only [List.nil_append]
  congr 1
  rw [List.range'_eq_map_range, List.map_map]
  apply List.map_congr_left
  intro j _
  simp [backoff_delay, Nat.add_comm 1 j]

/-- C8: `RetryExecutor.run` raises exactly in two cases: a policy with
`max_attempts < 1` raises the configuration error with zero operation
invocations, and an operation failing on all `max_attempts` invocations raises
one wrapped error whose message embeds the stage name, the attempt count, and
the last underlying error; the raw per-attempt errors never escape. -/
theorem C8_retry_config_or_wrapped (policy : RetryPolicy) (jitter : Nat → ℚ)
    (op : Nat → Except String α) (stage_name : String) :
    (policy.max_attempts < 1 →
      RetryExecutor.run policy jitter op stage_name =
        { calls := 0, sleeps := [], result := Except.error RetryError.configError }) ∧
    (1 ≤ policy.max_attempts →
      (∀ i : Nat, 1 ≤ i → (i : Int) ≤ policy.max_attempts → ∃ e, op i = Except.error e) →
      ∃ last, op policy.max_attempts.toNat = Except.error last ∧
        (RetryExecutor.run policy jitter op stage_name).calls = policy.max_attempts.toNat ∧
        (RetryExecutor.run policy jitter op stage_name).result =
          Except.error (RetryError.wrapped stage_name policy.max_attempts last) ∧
        (RetryError.wrapped stage_name policy.max_attempts last).message =
          stage_name ++ " failed after " ++ toString policy.max_attempts ++
            " attempt(s): " ++ last) := by
  constructor
  · intro h
    unfold RetryExecutor.run
    rw [if_pos h]
  · intro hpol hfail
    obtain ⟨sl, last, hlast, hsl⟩ := retryLoop_error op
      (fun attempt => backoff_delay policy (jitter attempt) attempt)
      (policy.max_attempts.toNat - 1) 1 []
      (fun i h1 h2 => hfail i (by omega) (by omega))
    have h1t : 1 + (policy.max_attempts.toNat - 1) = policy.max_attempts.toNat := by
      omega
    rw [h1t] at hlast hsl
    refine ⟨last, hlast, ?_⟩
    unfold RetryExecutor.run
    rw [if_neg (by omega)]
    rw [hsl]
    exact ⟨rfl, rfl, rfl⟩

/-- Witness for C7, the spec's own example: `max_attempts = 3`,
`backoff_seconds = 0.1`, zero jitter, an operation failing twice then
succeeding sleeps exactly `[0.1, 0.2]` and returns the success value with three
invocations. -/
theorem C7_retry_success_after_failures_witness :
    RetryExecutor.run { max_attempts := 3, backoff_seconds := 1/10, jitter_seconds := 0 }
      (fun _ => 0)
      (fun i => if i < 3 then Except.error "temporary failure" else Except.ok "ok")
      "retry-test" =
      { calls := 3, sleeps := [1/10, 2/10], result := Except.ok "ok" } := by
  rw [C7_retry_success_after_failures
    { max_attempts := 3, backoff_seconds := 1/10, jitter_seconds := 0 }
    (fun _ => 0)
    (fun i => if i < 3 then Except.error "temporary failure" else Except.ok "ok")
    "retry-test" "ok" 3 (by norm_num) (by norm_num)
    (fun i h1 h2 => ⟨"temporary failure", by simp [h2]⟩)
    (by norm_num)]
  simp [List.range_succ]
  norm_num [max_def]

/-- Witness for C8: a `max_attempts = 0` policy raises the configuration error
with zero invocations, and a `max_attempts = 2` policy over an always-failing
operation raises the wrapped error embedding stage, attempt count, and last
error. -/
theorem C8_retry_config_or_wrapped_witness :
    (RetryExecutor.run { max_attempts := 0, backoff_seconds := 0, jitter_seconds := 0 }
      (fun _ => 0) (fun _ => (Except.error "boom" : Except String String)) "stage-a" =
      { calls := 0, sleeps := [], result := Except.error RetryError.configError }) ∧
    (∃ last, (Except.error "boom" : Except String String) = Except.error last ∧
      (RetryExecutor.run { max_attempts := 2, backoff_seconds := 0, jitter_seconds := 0 }
        (fun _ => 0) (fun _ => (Except.error "boom" : Except String String))
        "stage-b").calls = 2 ∧
      (RetryExecutor.run { max_attempts := 2, backoff_seconds := 0, jitter_seconds := 0 }
        (fun _ => 0) (fun _ => (Except.error "boom" : Except String String))
        "stage-b").result =
        Except.error (RetryError.wrapped "stage-b" 2 last) ∧
      (RetryError.wrapped "stage-b" 2 last).message =
        "stage-b" ++ " failed after " ++ toString (2 : Int) ++ " attempt(s): " ++ last) :=
  ⟨(C8_retry_config_or_wrapped _ (fun _ => 0) _ "stage-a").1 (by norm_num),
    (C8_retry_config_or_wrapped _ (fun _ => 0) _ "stage-b").2
      (by norm_num) (fun i _ _ => ⟨"boom", rfl⟩)⟩

/-! ## Dict and transition lemmas -/

/-- Reading back a key just written. -/
theorem dictGet_dictSet_self (d : List (String × String)) (k v : String) :
    dictGet (dictSet d k v) k = some v := by
  induction d with
  | nil => simp [dictGet, dictSet]
  | cons p rest ih =>
    by_cases hp : p.1 = k
    · simp [dictGet, dictSet, hp]
    · simp [dictGet, dictSet, hp, ih]

/-- Reading another key after a write. -/
theorem dictGet_dictSet_ne (d : List (String × String)) (k v k' : String)
    (hne : k' ≠ k) : dictGet (dictSet d k v) k' = dictGet d k' := by
  have hne' : ¬ k = k' := fun hh => hne hh.symm
  induction d with
  | nil => simp [dictGet, dictSet, hne']
  | cons p rest ih =>
    by_cases hp : p.1 = k
    · have hp' : ¬ p.1 = k' := by rw [hp]; exact hne'
      simp [dictGet, dictSet, hp, hp', hne']
    · by_cases hp' : p.1 = k'
      · simp [dictGet, dictSet, hp, hp', hne]
      · simp [dictGet, dictSet, hp, hp', ih]

/-- `_mark_node_transition` leaves every field it does not assign unchanged. -/
theorem mark_node_transition_preserves (env : FlowEnv σ) (st : FlowState σ)
    (log : FlowLog σ) (node_id : String) (to_state : FlowNodeState) (reason : String) :
    ((mark_node_transition env st log node_id to_state reason).1.id = st.id ∧
      (mark_node_transition env st log node_id to_state reason).1.run_id = st.run_id ∧
      (mark_node_transition env st log node_id to_state reason).1.schema_version =
        st.schema_version ∧
      (mark_node_transition env st log node_id to_state reason).1.request_payload =
        st.request_payload ∧
      (mark_node_transition env st log node_id to_state reason).1.branch_statuses =
        st.branch_statuses ∧
      (mark_node_transition env st log node_id to_state reason).1.branch_failures =
        st.branch_failures ∧
      (mark_node_transition env st log node_id to_state reason).1.scanner_output =
        st.scanner_output ∧
      (mark_node_transition env st log node_id to_state reason).1.architecture_output =
        st.architecture_output ∧
      (mark_node_transition env st log node_id to_state reason).1.security_output =
        st.security_output ∧
      (mark_node_transition env st log node_id to_state reason).1.performance_output =
        st.performance_output ∧
      (mark_node_transition env st log node_id to_state reason).1.roadmap_output =
        st.roadmap_output) ∧
    ((mark_node_transition env st log node_id to_state reason).2.scanner_calls =
        log.scanner_calls ∧
      (mark_node_transition env st log node_id to_state reason).2.architecture_calls =
        log.architecture_calls ∧
      (mark_node_transition env st log node_id to_state reason).2.security_calls =
        log.security_calls ∧
      (mark_node_transition env st log node_id to_state reason).2.performance_calls =
        log.performance_calls) := by
  unfold mark_node_transition
  exact ⟨⟨rfl, rfl, rfl, rfl, rfl, rfl, rfl, rfl, rfl, rfl, rfl⟩, rfl, rfl, rfl, rfl⟩

/-- C9: every node transition appends exactly one record
`(run_id, node_id, from_state, to_state, timestamp, reason)` to the transition
log store and persists one full state snapshot keyed by the run identity and
the node id; it sets `checkpoint_id` to `run_id:node_id` and `resume_token` to
the run identity, and it appends the node id to `completed_nodes` exactly on a
COMPLETED transition when the id is absent, so `completed_nodes` stays
duplicate-free and only ever grows. -/
theorem C9_mark_transition_checkpoint (env : FlowEnv σ) (st : FlowState σ)
    (log : FlowLog σ) (node_id : String) (to_state : FlowNodeState) (reason : String) :
    (mark_node_transition env st log node_id to_state reason).2.transitions =
      log.transitions ++
        [{ run_id := if st.run_id = "" then st.id else st.run_id
           node_id := node_id
           from_state := st.state.value
           to_state := to_state.value
           timestamp := log.clock
           reason := env.redact reason }] ∧
    (mark_node_transition env st log node_id to_state reason).2.snapshots =
      log.snapshots ++
        [{ flow_uuid := st.id
           method_name := node_id
           state_data := (mark_node_transition env st log node_id to_state reason).1 }] ∧
    (mark_node_transition env st log node_id to_state reason).1.checkpoint_id =
      some (st.run_id ++ ":" ++ node_id) ∧
    (mark_node_transition env st log node_id to_state reason).1.resume_token =
      some st.id ∧
    (mark_node_transition env st log node_id to_state reason).1.completed_nodes =
      (if to_state = FlowNodeState.completed ∧ node_id ∉ st.completed_nodes then
        st.completed_nodes ++ [node_id]
      else st.completed_nodes) ∧
    (∃ tail, (mark_node_transition env st log node_id to_state reason).1.completed_nodes =
      st.completed_nodes ++ tail) ∧
    (st.completed_nodes.Nodup →
      (mark_node_transition env st log node_id to_state reason).1.completed_nodes.Nodup) := by
  refine ⟨rfl, rfl, rfl, rfl, rfl, ?_, ?_⟩
  · unfold mark_node_transition
    by_cases h : to_state = FlowNodeState.completed ∧ node_id ∉ st.completed_nodes
    · exact ⟨[node_id], by simp [h]⟩
    · exact ⟨[], by simp [h]⟩
  · intro hnd
    unfold mark_node_transition
    by_cases h : to_state = FlowNodeState.completed ∧ node_id ∉ st.completed_nodes
    · simp only [if_pos h]
      simpa [List.nodup_append] using ⟨hnd, fun hmem => h.2 hmem⟩
    · simpa [if_neg h] using hnd

/-- Witness for C9 at a concrete transition: the Nodup-preservation implication
discharged, together with the appended transition row. -/
theorem C9_mark_transition_checkpoint_witness :
    (mark_node_transition (σ := Unit)
        { flow_id := "repoclinic-flow", default_provider_profile := "p"
          redact := id, fid := fun a b c => a ++ b ++ c
          policy := { max_attempts := 3, backoff_seconds := 0, jitter_seconds := 0 }
          jitter := fun _ => 0
          scannerOp := fun _ _ => Except.ok ()
          archOp := fun _ _ => Except.error "x"
          secOp := fun _ _ => Except.error "x"
          perfOp := fun _ _ => Except.error "x" }
        (kickoffState Unit { run_id := "r1", schema_version := "1.0.0" } "p")
        (emptyLog Unit) "start" FlowNodeState.completed "done").1.completed_nodes.Nodup ∧
    (mark_node_transition (σ := Unit)
        { flow_id := "repoclinic-flow", default_provider_profile := "p"
          redact := id, fid := fun a b c => a ++ b ++ c
          policy := { max_attempts := 3, backoff_seconds := 0, jitter_seconds := 0 }
          jitter := fun _ => 0
          scannerOp := fun _ _ => Except.ok ()
          archOp := fun _ _ => Except.error "x"
          secOp := fun _ _ => Except.error "x"
          perfOp := fun _ _ => Except.error "x" }
        (kickoffState Unit { run_id := "r1", schema_version := "1.0.0" } "p")
        (emptyLog Unit) "start" FlowNodeState.completed "done").1.checkpoint_id =
      some ("r1" ++ ":" ++ "start") :=
  ⟨(C9_mark_transition_checkpoint _ _ _ "start" FlowNodeState.completed "done").2.2.2.2.2.2
      (by decide),
    (C9_mark_transition_checkpoint _ _ _ "start" FlowNodeState.completed "done").2.2.1⟩

/-! ## C2: idempotent re-entry -/

/-- C2: every node handler short-circuits when its node id is already in
`completed_nodes` — it returns the previously stored output (an absent payload
models the empty `{}` fallback) without touching the flow state, the transition
log, the snapshots, or any collaborator call counter; consequently re-running
the whole flow over a state whose `completed_nodes` holds every node id leaves
state and log untouched for every branch order. -/
theorem C2_idempotent_short_circuit (env : FlowEnv σ) (st : FlowState σ)
    (log : FlowLog σ) :
    ("start" ∈ st.completed_nodes →
      validate_request_and_state env st log =
        Except.ok (st, log, StartReturn.alreadyCompleted st.run_id)) ∧
    ("scanner" ∈ st.completed_nodes →
      run_scanner_stage env st log = Except.ok (st, log, st.scanner_output)) ∧
    ("architecture" ∈ st.completed_nodes →
      run_architecture_branch env st log = Except.ok (st, log, st.architecture_output)) ∧
    ("security" ∈ st.completed_nodes →
      run_security_branch env st log = Except.ok (st, log, st.security_output)) ∧
    ("performance" ∈ st.completed_nodes →
      run_performance_branch env st log = Except.ok (st, log, st.performance_output)) ∧
    ("roadmap" ∈ st.completed_nodes →
      run_roadmap_trigger env st log = (st, log, st.roadmap_output)) ∧
    ((∀ n ∈ ["start", "scanner", "architecture", "security", "performance", "roadmap"],
        n ∈ st.completed_nodes) →
      ∀ order : List BranchTag, runFlow env order st log = Except.ok (st, log)) := by
  refine ⟨?_, ?_, ?_, ?_, ?_, ?_, ?_⟩
  · intro h
    unfold validate_request_and_state
    rw [if_pos h]
  · intro h
    unfold run_scanner_stage
    rw [if_pos h]
  · intro h
    unfold run_architecture_branch
    rw [if_pos h]
  · intro h
    unfold run_security_branch
    rw [if_pos h]
  · intro h
    unfold run_performance_branch
    rw [if_pos h]
  · intro h
    unfold run_roadmap_trigger
    rw [if_pos h]
  · intro hall order
    have hbranch : ∀ tag : BranchTag, runBranch env tag st log = Except.ok (st, log) := by
      intro tag
      cases tag with
      | architecture =>
        unfold runBranch run_architecture_branch
        rw [if_pos (hall "architecture" (by simp))]
        rfl
      | security =>
        unfold runBranch run_security_branch
        rw [if_pos (hall "security" (by simp))]
        rfl
      | performance =>
        unfold runBranch run_performance_branch
        rw [if_pos (hall "performance" (by simp))]
        rfl
    have hlist : ∀ tags : List BranchTag, runBranchList env tags st log = Except.ok (st, log) := by
      intro tags
      induction tags with
      | nil => rfl
      | cons t rest ih =>
        unfold runBranchList
        rw [hbranch t]
        exact ih
    have h1 : validate_request_and_state env st log =
        Except.ok (st, log, StartReturn.alreadyCompleted st.run_id) := by
      unfold validate_request_and_state
      rw [if_pos (hall "start" (by simp))]
    have h2 : run_scanner_stage env st log = Except.ok (st, log, st.scanner_output) := by
      unfold run_scanner_stage
      rw [if_pos (hall "scanner" (by simp))]
    have h4 : run_roadmap_trigger env st log = (st, log, st.roadmap_output) := by
      unfold run_roadmap_trigger
      rw [if_pos (hall "roadmap" (by simp))]
    unfold runFlow
    rw [h1]
    simp only [h2, hlist order, h4]

/-- Witness for C2: a fully completed state re-runs to itself with zero
collaborator invocations recorded. -/
theorem C2_idempotent_short_circuit_witness :
    runFlow (σ := Unit)
      { flow_id := "repoclinic-flow", default_provider_profile := "p"
        redact := id, fid := fun a b c => a ++ b ++ c
        policy := { max_attempts := 3, backoff_seconds := 0, jitter_seconds := 0 }
        jitter := fun _ => 0
        scannerOp := fun _ _ => Except.ok ()
        archOp := fun _ _ => Except.error "x"
        secOp := fun _ _ => Except.error "x"
        perfOp := fun _ _ => Except.error "x" }
      [BranchTag.architecture, BranchTag.security, BranchTag.performance]
      { kickoffState Unit { run_id := "r1", schema_version := "1.0.0" } "p" with
        completed_nodes := ["start", "scanner", "architecture", "security",
          "performance", "roadmap"] }
      (emptyLog Unit) =
      Except.ok
        ({ kickoffState Unit { run_id := "r1", schema_version := "1.0.0" } "p" with
            completed_nodes := ["start", "scanner", "architecture", "security",
              "performance", "roadmap"] },
          emptyLog Unit) :=
  (C2_idempotent_short_circuit _ _ _).2.2.2.2.2.2 (by decide) _

/-! ## C4: branch failure placeholders -/

/-- C4: when the retry executor exhausts its attempts on a branch collaborator,
the branch node does not raise: it marks the branch `failed`, records the
redacted wrapped error under the branch id in `branch_failures`, and stores the
deterministic failure placeholder as the branch output — a single finding of
the branch's category with status FAILED, confidence 0, and severity Medium for
architecture/performance, High for security — so the fan-in join always
receives a structurally valid input. -/
theorem C4_branch_failure_placeholder (env : FlowEnv σ) (st : FlowState σ)
    (log : FlowLog σ) (scannerPayload : σ)
    (hso : st.scanner_output = some scannerPayload) :
    (∀ exc, "architecture" ∉ st.completed_nodes →
      (RetryExecutor.run env.policy env.jitter (env.archOp scannerPayload)
          "architecture-branch").result = Except.error exc →
      ∃ st' log',
        run_architecture_branch env st log =
          Except.ok (st', log', st'.architecture_output) ∧
        dictGet st'.branch_statuses "architecture" = some "failed" ∧
        dictGet st'.branch_failures "architecture" = some (env.redact exc.message) ∧
        st'.architecture_output = some (build_failed_architecture_output env.fid
          st.run_id st.schema_version (env.redact exc.message))) ∧
    (∀ exc, "security" ∉ st.completed_nodes →
      (RetryExecutor.run env.policy env.jitter (env.secOp scannerPayload)
          "security-branch").result = Except.error exc →
      ∃ st' log',
        run_security_branch env st log =
          Except.ok (st', log', st'.security_output) ∧
        dictGet st'.branch_statuses "security" = some "failed" ∧
        dictGet st'.branch_failures "security" = some (env.redact exc.message) ∧
        st'.security_output = some (build_failed_security_output env.fid
          st.run_id st.schema_version (env.redact exc.message))) ∧
    (∀ exc, "performance" ∉ st.completed_nodes →
      (RetryExecutor.run env.policy env.jitter (env.perfOp scannerPayload)
          "performance-branch").result = Except.error exc →
      ∃ st' log',
        run_performance_branch env st log =
          Except.ok (st', log', st'.performance_output) ∧
        dictGet st'.branch_statuses "performance" = some "failed" ∧
        dictGet st'.branch_failures "performance" = some (env.redact exc.message) ∧
        st'.performance_output = some (build_failed_performance_output env.fid
          st.run_id st.schema_version (env.redact exc.message))) ∧
    (∀ fid run_id schema_version reason, ∃ f,
      (build_failed_architecture_output fid run_id schema_version reason).findings = [f] ∧
      f.category = FindingCategory.architecture ∧ f.status = FindingStatus.failed ∧
      f.confidence = 0 ∧ f.severity = Severity.medium) ∧
    (∀ fid run_id schema_version reason, ∃ f,
      (build_failed_security_output fid run_id schema_version reason).findings = [f] ∧
      f.category = FindingCategory.security ∧ f.status = FindingStatus.failed ∧
      f.confidence = 0 ∧ f.severity = Severity.high) ∧
    (∀ fid run_id schema_version reason, ∃ f,
      (build_failed_performance_output fid run_id schema_version reason).findings = [f] ∧
      f.category = FindingCategory.performance ∧ f.status = FindingStatus.failed ∧
      f.confidence = 0 ∧ f.severity = Severity.medium) := by
  refine ⟨?_, ?_, ?_,
    fun fid rid sv reason => ⟨_, rfl, rfl, rfl, rfl, rfl⟩,
    fun fid rid sv reason => ⟨_, rfl, rfl, rfl, rfl, rfl⟩,
    fun fid rid sv reason => ⟨_, rfl, rfl, rfl, rfl, rfl⟩⟩
  · intro exc hni hres
    unfold run_architecture_branch
    rw [if_neg hni]
    simp only [mark_node_transition, hso, hres]
    refine ⟨_, _, rfl, ?_, ?_, rfl⟩
    · simp [mark_node_transition, dictGet_dictSet_self]
    · simp [mark_node_transition, dictGet_dictSet_self]
  · intro exc hni hres
    unfold run_security_branch
    rw [if_neg hni]
    simp only [mark_node_transition, hso, hres]
    refine ⟨_, _, rfl, ?_, ?_, rfl⟩
    · simp [mark_node_transition, dictGet_dictSet_self]
    · simp [mark_node_transition, dictGet_dictSet_self]
  · intro exc hni hres
    unfold run_performance_branch
    rw [if_neg hni]
    simp only [mark_node_transition, hso, hres]
    refine ⟨_, _, rfl, ?_, ?_, rfl⟩
    · simp [mark_node_transition, dictGet_dictSet_self]
    · simp [mark_node_transition, dictGet_dictSet_self]

/-! ## C10: roadmap degrade-and-continue -/

/-- C10: the roadmap node never raises.  If deserializing any branch output
fails inside the try block, `run_roadmap_trigger` still returns: it marks
`branch_statuses["roadmap"] = "failed"`, records the redacted error under
`roadmap` in `branch_failures`, stores a roadmap output with status `failed`
and no items, records the FAILED transition as the last log row, and returns
that placeholder — the caller always receives a terminal flow state.  (That the
handler's type is total, unlike the other nodes' raising types, embeds the
catch-all except block.) -/
theorem C10_roadmap_never_raises (env : FlowEnv σ) (st : FlowState σ)
    (log : FlowLog σ) (hni : "roadmap" ∉ st.completed_nodes)
    (hmiss : st.architecture_output = none ∨ st.security_output = none ∨
      st.performance_output = none) :
    ∃ st' log' out msg,
      run_roadmap_trigger env st log = (st', log', some out) ∧
      dictGet st'.branch_statuses "roadmap" = some "failed" ∧
      dictGet st'.branch_failures "roadmap" = some (env.redact msg) ∧
      out.status = "failed" ∧
      out.items = [] ∧
      st'.roadmap_output = some out ∧
      ∃ row, log'.transitions.getLast? = some row ∧ row.node_id = "roadmap" ∧
        row.to_state = "failed" := by
  unfold run_roadmap_trigger
  rw [if_neg hni]
  cases harch : st.architecture_output with
  | none =>
    simp only [mark_node_transition, harch]
    refine ⟨_, _, _, validationError "ArchitectureAgentOutput",
      rfl, ?_, ?_, rfl, rfl, rfl, ?_⟩
    · simp [dictGet_dictSet_self]
    · simp [dictGet_dictSet_self]
    · simp [FlowNodeState.value]
  | some a =>
    cases hsec : st.security_output with
    | none =>
      simp only [mark_node_transition, harch, hsec]
      refine ⟨_, _, _, validationError "SecurityAgentOutput",
        rfl, ?_, ?_, rfl, rfl, rfl, ?_⟩
      · simp [dictGet_dictSet_self]
      · simp [dictGet_dictSet_self]
      · simp [FlowNodeState.value]
    | some s =>
      cases hperf : st.performance_output with
      | none =>
        simp only [mark_node_transition, harch, hsec, hperf]
        refine ⟨_, _, _, validationError "PerformanceAgentOutput",
          rfl, ?_, ?_, rfl, rfl, rfl, ?_⟩
        · simp [dictGet_dictSet_self]
        · simp [dictGet_dictSet_self]
        · simp [FlowNodeState.value]
      | some p =>
        exfalso
        rcases hmiss with h | h | h
        · rw [harch] at h; exact Option.noConfusion h
        · rw [hsec] at h; exact Option.noConfusion h
        · rw [hperf] at h; exact Option.noConfusion h

/-- Witness for C10: a state that never ran its branches still gets a terminal
failed roadmap output instead of an exception. -/
theorem C10_roadmap_never_raises_witness :
    ∃ st' log' out msg,
      run_roadmap_trigger (σ := Unit)
        { flow_id := "repoclinic-flow", default_provider_profile := "p"
          redact := id, fid := fun a b c => a ++ b ++ c
          policy := { max_attempts := 1, backoff_seconds := 0, jitter_seconds := 0 }
          jitter := fun _ => 0
          scannerOp := fun _ _ => Except.ok ()
          archOp := fun _ _ => Except.error "x"
          secOp := fun _ _ => Except.error "x"
          perfOp := fun _ _ => Except.error "x" }
        (kickoffState Unit { run_id := "r1", schema_version := "1.0.0" } "p")
        (emptyLog Unit) = (st', log', some out) ∧
      dictGet st'.branch_statuses "roadmap" = some "failed" ∧
      dictGet st'.branch_failures "roadmap" = some (id msg : String) ∧
      out.status = "failed" ∧
      out.items = [] ∧
      st'.roadmap_output = some out ∧
      ∃ row, log'.transitions.getLast? = some row ∧ row.node_id = "roadmap" ∧
        row.to_state = "failed" :=
  C10_roadmap_never_raises _ _ _ (by decide) (Or.inl rfl)

/-! ## C5: degraded fan-in semantics -/

/-- C5: the roadmap node sets its status to `degraded` exactly when one of the
three branch statuses is `failed`, and to `completed` otherwise; and a fresh
run in which exactly one branch collaborator keeps failing still ends in a
terminal `degraded` roadmap state whose `branch_failures` holds exactly that
branch, while the two surviving branches' real outputs feed the synthesis
unsubstituted. -/
theorem C5_degraded_iff_branch_failed (env : FlowEnv σ) :
    (∀ (st : FlowState σ) (log : FlowLog σ) a s p,
      "roadmap" ∉ st.completed_nodes →
      st.architecture_output = some a →
      st.security_output = some s →
      st.performance_output = some p →
      ∃ st' log',
        run_roadmap_trigger env st log = (st', log', st'.roadmap_output) ∧
        ((dictGet st'.branch_statuses "roadmap" = some "degraded") ↔
          (dictGet st.branch_statuses "architecture" = some "failed" ∨
            dictGet st.branch_statuses "security" = some "failed" ∨
            dictGet st.branch_statuses "performance" = some "failed")) ∧
        (¬ (dictGet st.branch_statuses "architecture" = some "failed" ∨
            dictGet st.branch_statuses "security" = some "failed" ∨
            dictGet st.branch_statuses "performance" = some "failed") →
          dictGet st'.branch_statuses "roadmap" = some "completed")) ∧
    (∀ (request : AnalyzeRequest) (profile : String) (scannerPayload : σ)
        (S : SecurityAgentOutput) (P : PerformanceAgentOutput) exc,
      (RetryExecutor.run env.policy env.jitter (env.scannerOp request)
        "scanner-stage").result = Except.ok scannerPayload →
      (RetryExecutor.run env.policy env.jitter (env.archOp scannerPayload)
        "architecture-branch").result = Except.error exc →
      (RetryExecutor.run env.policy env.jitter (env.secOp scannerPayload)
        "security-branch").result = Except.ok S →
      (RetryExecutor.run env.policy env.jitter (env.perfOp scannerPayload)
        "performance-branch").result = Except.ok P →
      ∃ st' log',
        runFlow env [BranchTag.architecture, BranchTag.security, BranchTag.performance]
          (kickoffState σ request profile) (emptyLog σ) = Except.ok (st', log') ∧
        dictGet st'.branch_statuses "roadmap" = some "degraded" ∧
        st'.branch_failures = [("architecture", env.redact exc.message)] ∧
        st'.security_output = some S ∧
        st'.performance_output = some P ∧
        st'.roadmap_output = some {
          schema_version := request.schema_version
          run_id := request.run_id
          status := "degraded"
          items := synthesize_roadmap
            (build_failed_architecture_output env.fid request.run_id
              request.schema_version (env.redact exc.message)) S P
          branch_failures := [("architecture", env.redact exc.message)] }) ∧
    (∀ (request : AnalyzeRequest) (profile : String) (scannerPayload : σ)
        (A : ArchitectureAgentOutput) (P : PerformanceAgentOutput) exc,
      (RetryExecutor.run env.policy env.jitter (env.scannerOp request)
        "scanner-stage").result = Except.ok scannerPayload →
      (RetryExecutor.run env.policy env.jitter (env.archOp scannerPayload)
        "architecture-branch").result = Except.ok A →
      (RetryExecutor.run env.policy env.jitter (env.secOp scannerPayload)
        "security-branch").result = Except.error exc →
      (RetryExecutor.run env.policy env.jitter (env.perfOp scannerPayload)
        "performance-branch").result = Except.ok P →
      ∃ st' log',
        runFlow env [BranchTag.architecture, BranchTag.security, BranchTag.performance]
          (kickoffState σ request profile) (emptyLog σ) = Except.ok (st', log') ∧
        dictGet st'.branch_statuses "roadmap" = some "degraded" ∧
        st'.branch_failures = [("security", env.redact exc.message)] ∧
        st'.architecture_output = some A ∧
        st'.performance_output = some P ∧
        st'.roadmap_output = some {
          schema_version := request.schema_version
          run_id := request.run_id
          status := "degraded"
          items := synthesize_roadmap A
            (build_failed_security_output env.fid request.run_id
              request.schema_version (env.redact exc.message)) P
          branch_failures := [("security", env.redact exc.message)] }) ∧
    (∀ (request : AnalyzeRequest) (profile : String) (scannerPayload : σ)
        (A : ArchitectureAgentOutput) (S : SecurityAgentOutput) exc,
      (RetryExecutor.run env.policy env.jitter (env.scannerOp request)
        "scanner-stage").result = Except.ok scannerPayload →
      (RetryExecutor.run env.policy env.jitter (env.archOp scannerPayload)
        "architecture-branch").result = Except.ok A →
      (RetryExecutor.run env.policy env.jitter (env.secOp scannerPayload)
        "security-branch").result = Except.ok S →
      (RetryExecutor.run env.policy env.jitter (env.perfOp scannerPayload)
        "performance-branch").result = Except.error exc →
      ∃ st' log',
        runFlow env [BranchTag.architecture, BranchTag.security, BranchTag.performance]
          (kickoffState σ request profile) (emptyLog σ) = Except.ok (st', log') ∧
        dictGet st'.branch_statuses "roadmap" = some "degraded" ∧
        st'.branch_failures = [("performance", env.redact exc.message)] ∧
        st'.architecture_output = some A ∧
        st'.security_output = some S ∧
        st'.roadmap_output = some {
          schema_version := request.schema_version
          run_id := request.run_id
          status := "degraded"
          items := synthesize_roadmap A S
            (build_failed_performance_output env.fid request.run_id
              request.schema_version (env.redact exc.message))
          branch_failures := [("performance", env.redact exc.message)] }) := by
  refine ⟨?_, ?_, ?_, ?_⟩
  · intro st log a s p hni harch hsec hperf
    unfold run_roadmap_trigger
    rw [if_neg hni]
    simp only [mark_node_transition, harch, hsec, hperf]
    by_cases hdeg :
      dictGet st.branch_statuses "architecture" = some "failed" ∨
        dictGet st.branch_statuses "security" = some "failed" ∨
        dictGet st.branch_statuses "performance" = some "failed"
    · refine ⟨_, _, rfl, ?_, ?_⟩
      · have hany : (["architecture", "security", "performance"].any fun branch =>
            dictGet st.branch_statuses branch = some "failed") = true := by
          simp only [List.any_cons, List.any_nil, Bool.or_eq_true, decide_eq_true_eq,
            Bool.or_false]
          exact hdeg
        simp [hany, dictGet_dictSet_self, hdeg]
      · intro h
        exact absurd hdeg h
    · refine ⟨_, _, rfl, ?_, ?_⟩
      · have hany : (["architecture", "security", "performance"].any fun branch =>
            dictGet st.branch_statuses branch = some "failed") = false := by
          simp only [List.any_cons, List.any_nil, Bool.or_eq_false_iff,
            decide_eq_false_iff_not]
          push_neg at hdeg
          exact ⟨hdeg.1, hdeg.2.1, hdeg.2.2, trivial⟩
        simp [hany, dictGet_dictSet_self, hdeg]
      · intro _
        have hany : (["architecture", "security", "performance"].any fun branch =>
            dictGet st.branch_statuses branch = some "failed") = false := by
          simp only [List.any_cons, List.any_nil, Bool.or_eq_false_iff,
            decide_eq_false_iff_not]
          push_neg at hdeg
          exact ⟨hdeg.1, hdeg.2.1, hdeg.2.2, trivial⟩
        simp [hany, dictGet_dictSet_self]
  · intro request profile scannerPayload S P exc hscan ha hs hp
    simp only [runFlow, runBranchList, runBranch, validate_request_and_state,
      run_scanner_stage, run_architecture_branch, run_security_branch,
      run_performance_branch, run_roadmap_trigger, mark_node_transition,
      kickoffState, emptyLog]
    simp [hscan, ha, hs, hp, dictSet, dictGet, Except.map]
  · intro request profile scannerPayload A P exc hscan ha hs hp
    simp only [runFlow, runBranchList, runBranch, validate_request_and_state,
      run_scanner_stage, run_architecture_branch, run_security_branch,
      run_performance_branch, run_roadmap_trigger, mark_node_transition,
      kickoffState, emptyLog]
    simp [hscan, ha, hs, hp, dictSet, dictGet, Except.map]
  · intro request profile scannerPayload A S exc hscan ha hs hp
    simp only [runFlow, runBranchList, runBranch, validate_request_and_state,
      run_scanner_stage, run_architecture_branch, run_security_branch,
      run_performance_branch, run_roadmap_trigger, mark_node_transition,
      kickoffState, emptyLog]
    simp [hscan, ha, hs, hp, dictSet, dictGet, Except.map]

/-! ## Concrete fixtures for witnesses -/

/-- A minimal valid architecture branch output fixture. -/
def archOutW : ArchitectureAgentOutput :=
  { schema_version := "1.0.0", run_id := "r1",
    architecture_type := ArchitectureType.unknown, module_boundaries := [],
    runtime_flow_summary := "flow", findings := [] }

/-- A minimal valid security branch output fixture. -/
def secOutW : SecurityAgentOutput :=
  { schema_version := "1.0.0", run_id := "r1", findings := [],
    top_security_risks := [] }

/-- A minimal valid performance branch output fixture. -/
def perfOutW : PerformanceAgentOutput :=
  { schema_version := "1.0.0", run_id := "r1", findings := [],
    top_performance_risks := [] }

/-- Environment whose security collaborator always fails (one attempt). -/
def envSecFail : FlowEnv Unit :=
  { flow_id := "repoclinic-flow", default_provider_profile := "p"
    redact := id, fid := fun a b c => a ++ ":" ++ b ++ ":" ++ c
    policy := { max_attempts := 1, backoff_seconds := 0, jitter_seconds := 0 }
    jitter := fun _ => 0
    scannerOp := fun _ _ => Except.ok ()
    archOp := fun _ _ => Except.ok archOutW
    secOp := fun _ _ => Except.error "llm down"
    perfOp := fun _ _ => Except.ok perfOutW }

/-- Witness for C4: with an always-failing architecture collaborator, the
branch node returns the deterministic failure placeholder without raising. -/
theorem C4_branch_failure_placeholder_witness :
    ∃ st' log',
      run_architecture_branch
          { envSecFail with archOp := fun _ _ => Except.error "agent down" }
          { kickoffState Unit { run_id := "r1", schema_version := "1.0.0" } "p" with
            scanner_output := some () }
          (emptyLog Unit) =
        Except.ok (st', log', st'.architecture_output) ∧
      dictGet st'.branch_statuses "architecture" = some "failed" ∧
      dictGet st'.branch_failures "architecture" =
        some ({ envSecFail with archOp := fun _ _ => Except.error "agent down" }.redact
          (RetryError.wrapped "architecture-branch" 1 "agent down").message) ∧
      st'.architecture_output = some (build_failed_architecture_output
        { envSecFail with archOp := fun _ _ => Except.error "agent down" }.fid
        "r1" "1.0.0"
        ({ envSecFail with archOp := fun _ _ => Except.error "agent down" }.redact
          (RetryError.wrapped "architecture-branch" 1 "agent down").message)) :=
  (C4_branch_failure_placeholder _ _ (emptyLog Unit) () rfl).1
    (RetryError.wrapped "architecture-branch" 1 "agent down") (by decide) rfl

/-- Witness for C5: the security collaborator always failing still yields a
terminal degraded roadmap built from the real architecture/performance outputs
and the security placeholder. -/
theorem C5_degraded_iff_branch_failed_witness :
    ∃ st' log',
      runFlow envSecFail
          [BranchTag.architecture, BranchTag.security, BranchTag.performance]
          (kickoffState Unit { run_id := "r1", schema_version := "1.0.0" } "p")
          (emptyLog Unit) = Except.ok (st', log') ∧
      dictGet st'.branch_statuses "roadmap" = some "degraded" ∧
      st'.branch_failures = [("security", envSecFail.redact
        (RetryError.wrapped "security-branch" 1 "llm down").message)] ∧
      st'.architecture_output = some archOutW ∧
      st'.performance_output = some perfOutW ∧
      st'.roadmap_output = some {
        schema_version := "1.0.0"
        run_id := "r1"
        status := "degraded"
        items := synthesize_roadmap archOutW
          (build_failed_security_output envSecFail.fid "r1" "1.0.0"
            (envSecFail.redact (RetryError.wrapped "security-branch" 1 "llm down").message))
          perfOutW
        branch_failures := [("security", envSecFail.redact
          (RetryError.wrapped "security-branch" 1 "llm down").message)] } :=
  (C5_degraded_iff_branch_failed envSecFail).2.2.1
    { run_id := "r1", schema_version := "1.0.0" } "p" () archOutW perfOutW
    (RetryError.wrapped "security-branch" 1 "llm down") rfl rfl rfl rfl

/-! ## C6: scanner failure aborts downstream -/

/-- A non-short-circuited `start` node validates the request, leaves the branch
bookkeeping untouched, and appends one `start` transition row. -/
theorem validate_request_executes (env : FlowEnv σ) (st : FlowState σ)
    (log : FlowLog σ) (request : AnalyzeRequest)
    (hreq : st.request_payload = some request)
    (hni : "start" ∉ st.completed_nodes) :
    ∃ st' log',
      validate_request_and_state env st log =
        Except.ok (st', log', StartReturn.validated request.run_id) ∧
      st'.request_payload = some request ∧
      st'.completed_nodes = st.completed_nodes ++ ["start"] ∧
      st'.branch_statuses = st.branch_statuses ∧
      st'.branch_failures = st.branch_failures ∧
      st'.run_id = request.run_id ∧
      st'.scanner_output = st.scanner_output ∧
      (∃ row, log'.transitions = log.transitions ++ [row] ∧ row.node_id = "start") ∧
      log'.scanner_calls = log.scanner_calls ∧
      log'.architecture_calls = log.architecture_calls ∧
      log'.security_calls = log.security_calls ∧
      log'.performance_calls = log.performance_calls := by
  unfold validate_request_and_state
  rw [if_neg hni]
  simp only [hreq, mark_node_transition]
  refine ⟨_, _, rfl, rfl, ?_, rfl, rfl, rfl, rfl, ⟨_, rfl, rfl⟩, rfl, rfl, rfl, rfl⟩
  simp [hni]

/-- A non-short-circuited `scanner` node whose retry-wrapped collaborator call
fails marks the scanner failed, records the redacted wrapped error, appends a
RUNNING row and a FAILED row, and re-raises the wrapped message. -/
theorem run_scanner_stage_fails (env : FlowEnv σ) (st : FlowState σ)
    (log : FlowLog σ) (request : AnalyzeRequest) (exc : RetryError)
    (hreq : st.request_payload = some request)
    (hni : "scanner" ∉ st.completed_nodes)
    (hres : (RetryExecutor.run env.policy env.jitter (env.scannerOp request)
      "scanner-stage").result = Except.error exc) :
    ∃ st' log',
      run_scanner_stage env st log = Except.error (exc.message, st', log') ∧
      st'.branch_statuses = dictSet st.branch_statuses "scanner" "failed" ∧
      st'.branch_failures =
        dictSet st.branch_failures "scanner" (env.redact exc.message) ∧
      (∃ row1 row2, log'.transitions = log.transitions ++ [row1, row2] ∧
        row1.node_id = "scanner" ∧ row2.node_id = "scanner" ∧
        row2.to_state = "failed") ∧
      log'.architecture_calls = log.architecture_calls ∧
      log'.security_calls = log.security_calls ∧
      log'.performance_calls = log.performance_calls := by
  unfold run_scanner_stage
  rw [if_neg hni]
  simp only [mark_node_transition, hreq, hres]
  refine ⟨_, _, rfl, rfl, rfl,
    ⟨{ run_id := if st.run_id = "" then st.id else st.run_id, node_id := "scanner"
       from_state := st.state.value, to_state := FlowNodeState.running.value
       timestamp := log.clock, reason := env.redact "Executing scanner stage" },
     { run_id := if st.run_id = "" then st.id else st.run_id, node_id := "scanner"
       from_state := FlowNodeState.running.value, to_state := FlowNodeState.failed.value
       timestamp := log.clock + 1
       reason := env.redact ("Scanner stage failed: " ++ env.redact exc.message) },
     by simp, rfl, rfl, rfl⟩, rfl, rfl, rfl⟩

/-- C6: when the scanner collaborator fails on every attempt, the scanner node
marks `branch_statuses["scanner"] = "failed"`, records the redacted wrapped
error, logs the FAILED transition last, and re-raises the wrapped message
(which embeds the configured `max_attempts`); the whole run aborts with that
error for every branch order, and no branch collaborator is ever invoked (all
branch call counters keep their old values, and every appended transition row
belongs to `start` or `scanner`). -/
theorem C6_scanner_failure_fatal (env : FlowEnv σ) (st : FlowState σ)
    (log : FlowLog σ) (request : AnalyzeRequest)
    (hreq : st.request_payload = some request)
    (hsc : "scanner" ∉ st.completed_nodes)
    (hpol : 1 ≤ env.policy.max_attempts)
    (hops : ∀ i : Nat, ∃ e, env.scannerOp request i = Except.error e) :
    ∃ last st' log',
      (∀ order : List BranchTag,
        runFlow env order st log = Except.error
          ((RetryError.wrapped "scanner-stage" env.policy.max_attempts last).message,
            st', log')) ∧
      (RetryError.wrapped "scanner-stage" env.policy.max_attempts last).message =
        "scanner-stage" ++ " failed after " ++ toString env.policy.max_attempts ++
          " attempt(s): " ++ last ∧
      dictGet st'.branch_statuses "scanner" = some "failed" ∧
      dictGet st'.branch_failures "scanner" = some (env.redact
        (RetryError.wrapped "scanner-stage" env.policy.max_attempts last).message) ∧
      log'.architecture_calls = log.architecture_calls ∧
      log'.security_calls = log.security_calls ∧
      log'.performance_calls = log.performance_calls ∧
      (∀ row ∈ log'.transitions, row ∈ log.transitions ∨ row.node_id = "start" ∨
        row.node_id = "scanner") ∧
      (∃ row, log'.transitions.getLast? = some row ∧ row.node_id = "scanner" ∧
        row.to_state = "failed") := by
  obtain ⟨sl, last, hlast, hsl⟩ := retryLoop_error (env.scannerOp request)
    (fun attempt => backoff_delay env.policy (env.jitter attempt) attempt)
    (env.policy.max_attempts.toNat - 1) 1 [] (fun i _ _ => hops i)
  have hres : (RetryExecutor.run env.policy env.jitter (env.scannerOp request)
      "scanner-stage").result =
      Except.error (RetryError.wrapped "scanner-stage" env.policy.max_attempts last) := by
    unfold RetryExecutor.run
    rw [if_neg (by omega)]
    simp [hsl]
  by_cases hstart : "start" ∈ st.completed_nodes
  · have h1 : validate_request_and_state env st log =
        Except.ok (st, log, StartReturn.alreadyCompleted st.run_id) := by
      unfold validate_request_and_state
      rw [if_pos hstart]
    obtain ⟨st', log', herr, hbs, hbf, ⟨row1, row2, htr, hr1, hr2, hr2s⟩, hac, hsec, hpc⟩ :=
      run_scanner_stage_fails env st log request _ hreq hsc hres
    refine ⟨last, st', log', ?_, rfl, ?_, ?_, hac, hsec, hpc, ?_, ?_⟩
    · intro order
      unfold runFlow
      rw [h1]
      simp only [herr]
    · rw [hbs]
      exact dictGet_dictSet_self _ _ _
    · rw [hbf]
      exact dictGet_dictSet_self _ _ _
    · intro row hrow
      rw [htr] at hrow
      rcases List.mem_append.mp hrow with h | h
      · exact Or.inl h
      · simp only [List.mem_cons, List.mem_singleton] at h
        rcases h with h | h | h
        · exact Or.inr (Or.inr (h ▸ hr1))
        · exact Or.inr (Or.inr (h ▸ hr2))
        · exact absurd h (by simp)
    · refine ⟨row2, ?_, hr2, hr2s⟩
      rw [htr]
      rw [show log.transitions ++ [row1, row2] =
        (log.transitions ++ [row1]) ++ [row2] by simp]
      simp
  · obtain ⟨st1, log1, h1, h1req, h1cn, h1bs, h1bf, _h1rid, _h1so,
      ⟨row0, h1tr, h1row⟩, h1sc, h1ac, h1secc, h1pc⟩ :=
      validate_request_executes env st log request hreq hstart
    have hsc1 : "scanner" ∉ st1.completed_nodes := by
      rw [h1cn]
      simp [hsc]
    obtain ⟨st', log', herr, hbs, hbf, ⟨row1, row2, htr, hr1, hr2, hr2s⟩, hac, hsec, hpc⟩ :=
      run_scanner_stage_fails env st1 log1 request _ h1req hsc1 hres
    refine ⟨last, st', log', ?_, rfl, ?_, ?_, ?_, ?_, ?_, ?_, ?_⟩
    · intro order
      unfold runFlow
      rw [h1]
      simp only [herr]
    · rw [hbs, h1bs]
      exact dictGet_dictSet_self _ _ _
    · rw [hbf, h1bf]
      exact dictGet_dictSet_self _ _ _
    · rw [hac, h1ac]
    · rw [hsec, h1secc]
    · rw [hpc, h1pc]
    · intro row hrow
      rw [htr, h1tr] at hrow
      rcases List.mem_append.mp hrow with h | h
      · rcases List.mem_append.mp h with h' | h'
        · exact Or.inl h'
        · simp only [List.mem_singleton] at h'
          exact Or.inr (Or.inl (h' ▸ h1row))
      · simp only [List.mem_cons, List.mem_singleton] at h
        rcases h with h | h | h
        · exact Or.inr (Or.inr (h ▸ hr1))
        · exact Or.inr (Or.inr (h ▸ hr2))
        · exact absurd h (by simp)
    · refine ⟨row2, ?_, hr2, hr2s⟩
      rw [htr]
      rw [show log1.transitions ++ [row1, row2] =
        (log1.transitions ++ [row1]) ++ [row2] by simp]
      simp

/-- Witness for C6: with an always-failing scanner collaborator over two
attempts, the run aborts with the wrapped scanner error and the branch call
counters stay at zero. -/
theorem C6_scanner_failure_fatal_witness :
    ∃ last st' log',
      (∀ order : List BranchTag,
        runFlow { envSecFail with
            policy := { max_attempts := 2, backoff_seconds := 0, jitter_seconds := 0 }
            scannerOp := fun _ _ => Except.error "git clone failed" }
          order (kickoffState Unit { run_id := "r1", schema_version := "1.0.0" } "p")
          (emptyLog Unit) = Except.error
          ((RetryError.wrapped "scanner-stage" 2 last).message, st', log')) ∧
      (RetryError.wrapped "scanner-stage" 2 last).message =
        "scanner-stage" ++ " failed after " ++ toString (2 : Int) ++
          " attempt(s): " ++ last ∧
      dictGet st'.branch_statuses "scanner" = some "failed" ∧
      dictGet st'.branch_failures "scanner" = some (id
        (RetryError.wrapped "scanner-stage" 2 last).message : String) ∧
      log'.architecture_calls = 0 ∧
      log'.security_calls = 0 ∧
      log'.performance_calls = 0 ∧
      (∀ row ∈ log'.transitions, row ∈ ([] : List TransitionRecord) ∨
        row.node_id = "start" ∨ row.node_id = "scanner") ∧
      (∃ row, log'.transitions.getLast? = some row ∧ row.node_id = "scanner" ∧
        row.to_state = "failed") :=
  C6_scanner_failure_fatal _ _ _ { run_id := "r1", schema_version := "1.0.0" }
    rfl (by decide) (by norm_num) (fun i => ⟨"git clone failed", rfl⟩)

/-! ## C3: fan-in ordering over the transition log -/

/-- A row recording a terminal transition (`completed` or `failed`) of a node. -/
def terminalRow (rec : TransitionRecord) (node : String) : Prop :=
  rec.node_id = node ∧ (rec.to_state = "completed" ∨ rec.to_state = "failed")

/-- Some position of the list holds a terminal row for the node. -/
def TerminalLogged (ts : List TransitionRecord) (node : String) : Prop :=
  ∃ (i : Nat) (rec : TransitionRecord), ts[i]? = some rec ∧ terminalRow rec node

/-- Invariant tying `completed_nodes` to the transition log: every branch node
marked completed has a terminal row logged. -/
def BranchTerminalLogged (st : FlowState σ) (log : FlowLog σ) : Prop :=
  ∀ t : BranchTag, t.nodeId ∈ st.completed_nodes →
    TerminalLogged log.transitions t.nodeId

/-- C3's conclusion shape: the log holds a `roadmap → RUNNING` row at an index
strictly above a terminal row of each of the three branches. -/
def roadmapAfterBranchTerminals (ts : List TransitionRecord) : Prop :=
  ∃ (r : Nat) (rrec : TransitionRecord), ts[r]? = some rrec ∧
    rrec.node_id = "roadmap" ∧ rrec.to_state = "running" ∧
    ∀ t : BranchTag, ∃ i : Nat, i < r ∧ ∃ rec : TransitionRecord,
      ts[i]? = some rec ∧ terminalRow rec t.nodeId

/-- C3's conclusion over a whole flow execution: an aborted run never reached
the roadmap node (the claim conditions on roadmap beginning to execute), and a
run that returned satisfies the ordering over its final transition log. -/
def FanInHolds {σ : Type} :
    Except (String × FlowState σ × FlowLog σ) (FlowState σ × FlowLog σ) → Prop
  | .error _ => True
  | .ok p => roadmapAfterBranchTerminals p.2.transitions

/-- Terminal rows persist under appending to the log. -/
theorem TerminalLogged_append (ts ext : List TransitionRecord) (node : String)
    (h : TerminalLogged ts node) : TerminalLogged (ts ++ ext) node := by
  obtain ⟨i, rec, hi, hrec⟩ := h
  obtain ⟨hlt, _⟩ := List.getElem?_eq_some_iff.mp hi
  refine ⟨i, rec, ?_, hrec⟩
  rw [List.getElem?_append_left hlt]
  exact hi

/-- A successful `start` node only appends `start` rows and only adds `start`
to `completed_nodes`. -/
theorem validate_ok_spec (env : FlowEnv σ) (st : FlowState σ) (log : FlowLog σ)
    (st' : FlowState σ) (log' : FlowLog σ) (ret : StartReturn)
    (hok : validate_request_and_state env st log = Except.ok (st', log', ret)) :
    (∃ ext, log'.transitions = log.transitions ++ ext) ∧
    (∃ tail, st'.completed_nodes = st.completed_nodes ++ tail ∧
      ∀ n ∈ tail, n = "start") := by
  unfold validate_request_and_state at hok
  by_cases hmem : "start" ∈ st.completed_nodes
  · rw [if_pos hmem] at hok
    simp only [Except.ok.injEq, Prod.mk.injEq] at hok
    obtain ⟨h1, h2, _⟩ := hok
    subst h1
    subst h2
    exact ⟨⟨[], by simp⟩, ⟨[], by simp, by simp⟩⟩
  · rw [if_neg hmem] at hok
    cases hpay : st.request_payload with
    | none =>
      rw [hpay] at hok
      exact absurd hok (by simp)
    | some request =>
      rw [hpay] at hok
      simp only [mark_node_transition, Except.ok.injEq, Prod.mk.injEq] at hok
      obtain ⟨h1, h2, _⟩ := hok
      subst h1
      subst h2
      refine ⟨⟨_, rfl⟩, ⟨["start"], ?_, by simp⟩⟩
      simp [hmem]

/-- A successful `scanner` node only appends `scanner` rows and only adds
`scanner` to `completed_nodes`. -/
theorem scanner_ok_spec (env : FlowEnv σ) (st : FlowState σ) (log : FlowLog σ)
    (st' : FlowState σ) (log' : FlowLog σ) (out : Option σ)
    (hok : run_scanner_stage env st log = Except.ok (st', log', out)) :
    (∃ ext, log'.transitions = log.transitions ++ ext) ∧
    (∃ tail, st'.completed_nodes = st.completed_nodes ++ tail ∧
      ∀ n ∈ tail, n = "scanner") := by
  unfold run_scanner_stage at hok
  by_cases hmem : "scanner" ∈ st.completed_nodes
  · rw [if_pos hmem] at hok
    simp only [Except.ok.injEq, Prod.mk.injEq] at hok
    obtain ⟨h1, h2, _⟩ := hok
    subst h1
    subst h2
    exact ⟨⟨[], by simp⟩, ⟨[], by simp, by simp⟩⟩
  · rw [if_neg hmem] at hok
    cases hpay : st.request_payload with
    | none =>
      simp only [mark_node_transition, hpay] at hok
      exact absurd hok (by simp)
    | some request =>
      cases hres : (RetryExecutor.run env.policy env.jitter (env.scannerOp request)
          "scanner-stage").result with
      | ok scanPayload =>
        simp only [mark_node_transition, hpay, hres, Except.ok.injEq,
          Prod.mk.injEq] at hok
        obtain ⟨h1, h2, _⟩ := hok
        subst h1
        subst h2
        refine ⟨⟨_, List.append_assoc _ _ _⟩, ⟨["scanner"], ?_, by simp⟩⟩
        simp [hmem]
      | error exc =>
        simp only [mark_node_transition, hpay, hres] at hok
        exact absurd hok (by simp)

/-- A successful branch node run preserves the terminal-row invariant, only
appends to the log, only appends its own node id to `completed_nodes`, and
leaves a terminal row of its node in the log. -/
theorem runBranch_spec (env : FlowEnv σ) (tag : BranchTag) (st : FlowState σ)
    (log : FlowLog σ) (st' : FlowState σ) (log' : FlowLog σ)
    (hok : runBranch env tag st log = Except.ok (st', log'))
    (hinv : BranchTerminalLogged st log) :
    BranchTerminalLogged st' log' ∧
    (∃ ext, log'.transitions = log.transitions ++ ext) ∧
    (∃ tail, st'.completed_nodes = st.completed_nodes ++ tail ∧
      ∀ n ∈ tail, n = tag.nodeId) ∧
    TerminalLogged log'.transitions tag.nodeId := by
  cases tag with
  | architecture =>
    by_cases hmem : "architecture" ∈ st.completed_nodes
    · unfold runBranch run_architecture_branch at hok
      rw [if_pos hmem] at hok
      simp only [Except.map, Except.ok.injEq, Prod.mk.injEq] at hok
      obtain ⟨h1, h2⟩ := hok
      subst h1
      subst h2
      exact ⟨hinv, ⟨[], by simp⟩, ⟨[], by simp, by simp⟩,
        hinv BranchTag.architecture hmem⟩
    · unfold runBranch run_architecture_branch at hok
      rw [if_neg hmem] at hok
      cases hscan : st.scanner_output with
      | none =>
        simp only [mark_node_transition, hscan, Except.map] at hok
        exact absurd hok (by simp)
      | some so =>
        cases hres : (RetryExecutor.run env.policy env.jitter (env.archOp so)
            "architecture-branch").result with
        | ok out =>
          simp only [mark_node_transition, hscan, hres, hmem, Except.map,
            not_false_iff, and_true, if_true, Except.ok.injEq, Prod.mk.injEq] at hok
          obtain ⟨h1, h2⟩ := hok
          subst h1
          subst h2
          refine ⟨?_, ⟨_, List.append_assoc _ _ _⟩,
            ⟨["architecture"], by simp [hmem], by simp [BranchTag.nodeId]⟩,
            ⟨_, _, List.getElem?_concat_length _ _, rfl, Or.inl rfl⟩⟩
          intro t ht
          have ht2 : t.nodeId ∈ st.completed_nodes ∨ t.nodeId = "architecture" := by
            simpa [hmem] using ht
          rcases ht2 with h | h
          · exact TerminalLogged_append _ _ _ (TerminalLogged_append _ _ _ (hinv t h))
          · rw [h]
            exact ⟨_, _, List.getElem?_concat_length _ _, rfl, Or.inl rfl⟩
        | error exc =>
          simp only [mark_node_transition, hscan, hres, hmem, Except.map,
            Except.ok.injEq, Prod.mk.injEq] at hok
          obtain ⟨h1, h2⟩ := hok
          subst h1
          subst h2
          refine ⟨?_, ⟨_, List.append_assoc _ _ _⟩, ⟨[], by simp, by simp⟩,
            ⟨_, _, List.getElem?_concat_length _ _, rfl, Or.inr rfl⟩⟩
          intro t ht
          exact TerminalLogged_append _ _ _ (TerminalLogged_append _ _ _ (hinv t ht))
  | security =>
    by_cases hmem : "security" ∈ st.completed_nodes
    · unfold runBranch run_security_branch at hok
      rw [if_pos hmem] at hok
      simp only [Except.map, Except.ok.injEq, Prod.mk.injEq] at hok
      obtain ⟨h1, h2⟩ := hok
      subst h1
      subst h2
      exact ⟨hinv, ⟨[], by simp⟩, ⟨[], by simp, by simp⟩,
        hinv BranchTag.security hmem⟩
    · unfold runBranch run_security_branch at hok
      rw [if_neg hmem] at hok
      cases hscan : st.scanner_output with
      | none =>
        simp only [mark_node_transition, hscan, Except.map] at hok
        exact absurd hok (by simp)
      | some so =>
        cases hres : (RetryExecutor.run env.policy env.jitter (env.secOp so)
            "security-branch").result with
        | ok out =>
          simp only [mark_node_transition, hscan, hres, hmem, Except.map,
            not_false_iff, and_true, if_true, Except.ok.injEq, Prod.mk.injEq] at hok
          obtain ⟨h1, h2⟩ := hok
          subst h1
          subst h2
          refine ⟨?_, ⟨_, List.append_assoc _ _ _⟩,
            ⟨["security"], by simp [hmem], by simp [BranchTag.nodeId]⟩,
            ⟨_, _, List.getElem?_concat_length _ _, rfl, Or.inl rfl⟩⟩
          intro t ht
          have ht2 : t.nodeId ∈ st.completed_nodes ∨ t.nodeId = "security" := by
            simpa [hmem] using ht
          rcases ht2 with h | h
          · exact TerminalLogged_append _ _ _ (TerminalLogged_append _ _ _ (hinv t h))
          · rw [h]
            exact ⟨_, _, List.getElem?_concat_length _ _, rfl, Or.inl rfl⟩
        | error exc =>
          simp only [mark_node_transition, hscan, hres, hmem, Except.map,
            Except.ok.injEq, Prod.mk.injEq] at hok
          obtain ⟨h1, h2⟩ := hok
          subst h1
          subst h2
          refine ⟨?_, ⟨_, List.append_assoc _ _ _⟩, ⟨[], by simp, by simp⟩,
            ⟨_, _, List.getElem?_concat_length _ _, rfl, Or.inr rfl⟩⟩
          intro t ht
          exact TerminalLogged_append _ _ _ (TerminalLogged_append _ _ _ (hinv t ht))
  | performance =>
    by_cases hmem : "performance" ∈ st.completed_nodes
    · unfold runBranch run_performance_branch at hok
      rw [if_pos hmem] at hok
      simp only [Except.map, Except.ok.injEq, Prod.mk.injEq] at hok
      obtain ⟨h1, h2⟩ := hok
      subst h1
      subst h2
      exact ⟨hinv, ⟨[], by simp⟩, ⟨[], by simp, by simp⟩,
        hinv BranchTag.performance hmem⟩
    · unfold runBranch run_performance_branch at hok
      rw [if_neg hmem] at hok
      cases hscan : st.scanner_output with
      | none =>
        simp only [mark_node_transition, hscan, Except.map] at hok
        exact absurd hok (by simp)
      | some so =>
        cases hres : (RetryExecutor.run env.policy env.jitter (env.perfOp so)
            "performance-branch").result with
        | ok out =>
          simp only [mark_node_transition, hscan, hres, hmem, Except.map,
            not_false_iff, and_true, if_true, Except.ok.injEq, Prod.mk.injEq] at hok
          obtain ⟨h1, h2⟩ := hok
          subst h1
          subst h2
          refine ⟨?_, ⟨_, List.append_assoc _ _ _⟩,
            ⟨["performance"], by simp [hmem], by simp [BranchTag.nodeId]⟩,
            ⟨_, _, List.getElem?_concat_length _ _, rfl, Or.inl rfl⟩⟩
          intro t ht
          have ht2 : t.nodeId ∈ st.completed_nodes ∨ t.nodeId = "performance" := by
            simpa [hmem] using ht
          rcases ht2 with h | h
          · exact TerminalLogged_append _ _ _ (TerminalLogged_append _ _ _ (hinv t h))
          · rw [h]
            exact ⟨_, _, List.getElem?_concat_length _ _, rfl, Or.inl rfl⟩
        | error exc =>
          simp only [mark_node_transition, hscan, hres, hmem, Except.map,
            Except.ok.injEq, Prod.mk.injEq] at hok
          obtain ⟨h1, h2⟩ := hok
          subst h1
          subst h2
          refine ⟨?_, ⟨_, List.append_assoc _ _ _⟩, ⟨[], by simp, by simp⟩,
            ⟨_, _, List.getElem?_concat_length _ _, rfl, Or.inr rfl⟩⟩
          intro t ht
          exact TerminalLogged_append _ _ _ (TerminalLogged_append _ _ _ (hinv t ht))

/-- Folding the branch list composes the per-branch guarantees. -/
theorem runBranchList_spec (env : FlowEnv σ) (order : List BranchTag) :
    ∀ (st : FlowState σ) (log : FlowLog σ) (st' : FlowState σ) (log' : FlowLog σ),
    runBranchList env order st log = Except.ok (st', log') →
    BranchTerminalLogged st log →
    BranchTerminalLogged st' log' ∧
    (∃ ext, log'.transitions = log.transitions ++ ext) ∧
    (∃ tail, st'.completed_nodes = st.completed_nodes ++ tail ∧
      ∀ n ∈ tail, ∃ t : BranchTag, n = t.nodeId) ∧
    (∀ t : BranchTag, t ∈ order → TerminalLogged log'.transitions t.nodeId) := by
  induction order with
  | nil =>
    intro st log st' log' hok hinv
    unfold runBranchList at hok
    simp only [Except.ok.injEq, Prod.mk.injEq] at hok
    obtain ⟨h1, h2⟩ := hok
    subst h1
    subst h2
    exact ⟨hinv, ⟨[], by simp⟩, ⟨[], by simp, by simp⟩,
      fun t ht => absurd ht (by simp)⟩
  | cons tg rest ih =>
    intro st log st' log' hok hinv
    unfold runBranchList at hok
    cases hb : runBranch env tg st log with
    | error e =>
      rw [hb] at hok
      exact absurd hok (by simp)
    | ok p =>
      obtain ⟨st1, log1⟩ := p
      rw [hb] at hok
      obtain ⟨hinv1, ⟨ext1, hext1⟩, ⟨tail1, htail1, htail1mem⟩, hterm1⟩ :=
        runBranch_spec env tg st log st1 log1 hb hinv
      obtain ⟨hinv2, ⟨ext2, hext2⟩, ⟨tail2, htail2, htail2mem⟩, hterm2⟩ :=
        ih st1 log1 st' log' (by exact hok) hinv1
      refine ⟨hinv2, ⟨ext1 ++ ext2, by rw [hext2, hext1, List.append_assoc]⟩,
        ⟨tail1 ++ tail2, by rw [htail2, htail1, List.append_assoc], ?_⟩, ?_⟩
      · intro n hn
        rcases List.mem_append.mp hn with h | h
        · exact ⟨tg, htail1mem n h⟩
        · exact htail2mem n h
      · intro t ht
        rcases List.mem_cons.mp ht with h | h
        · subst h
          rw [hext2]
          exact TerminalLogged_append _ _ _ hterm1
        · exact hterm2 t h

/-- A non-short-circuited roadmap node logs its RUNNING row at the index just
past the incoming log and keeps every incoming row at its index. -/
theorem roadmap_trigger_log_spec (env : FlowEnv σ) (st : FlowState σ)
    (log : FlowLog σ) (hni : "roadmap" ∉ st.completed_nodes) :
    (∃ rrec : TransitionRecord,
      (run_roadmap_trigger env st log).2.1.transitions[log.transitions.length]? =
        some rrec ∧ rrec.node_id = "roadmap" ∧ rrec.to_state = "running") ∧
    (∀ (i : Nat) (rec : TransitionRecord), log.transitions[i]? = some rec →
      (run_roadmap_trigger env st log).2.1.transitions[i]? = some rec) := by
  have hstruct : ∃ rowX : TransitionRecord,
      (run_roadmap_trigger env st log).2.1.transitions =
        (log.transitions ++
          [{ run_id := if st.run_id = "" then st.id else st.run_id
             node_id := "roadmap"
             from_state := st.state.value
             to_state := FlowNodeState.running.value
             timestamp := log.clock
             reason := env.redact "Executing roadmap synthesis trigger" }]) ++
          [rowX] := by
    unfold run_roadmap_trigger
    rw [if_neg hni]
    cases harch : st.architecture_output with
    | none => exact ⟨_, by simp [mark_node_transition, harch]; rfl⟩
    | some a =>
      cases hsec : st.security_output with
      | none => exact ⟨_, by simp [mark_node_transition, harch, hsec]; rfl⟩
      | some s =>
        cases hperf : st.performance_output with
        | none => exact ⟨_, by simp [mark_node_transition, harch, hsec, hperf]; rfl⟩
        | some p => exact ⟨_, by simp [mark_node_transition, harch, hsec, hperf]; rfl⟩
  obtain ⟨rowX, hX⟩ := hstruct
  rw [hX]
  constructor
  · refine ⟨{ run_id := if st.run_id = "" then st.id else st.run_id
              node_id := "roadmap"
              from_state := st.state.value
              to_state := FlowNodeState.running.value
              timestamp := log.clock
              reason := env.redact "Executing roadmap synthesis trigger" },
      ?_, rfl, rfl⟩
    rw [List.getElem?_append_left (by simp)]
    exact List.getElem?_concat_length _ _
  · intro i rec hi
    obtain ⟨hlt, _⟩ := List.getElem?_eq_some_iff.mp hi
    rw [List.getElem?_append_left (by simp; omega)]
    rw [List.getElem?_append_left hlt]
    exact hi

/-- The terminal-row invariant survives a node that only appends log rows and
only adds `start`/`scanner` (never a branch id) to `completed_nodes`. -/
theorem BranchTerminalLogged_carry (st st' : FlowState σ) (log log' : FlowLog σ)
    (node : String) (hnode : node = "start" ∨ node = "scanner")
    (hinv : BranchTerminalLogged st log)
    (hext : ∃ ext, log'.transitions = log.transitions ++ ext)
    (htail : ∃ tail, st'.completed_nodes = st.completed_nodes ++ tail ∧
      ∀ n ∈ tail, n = node) :
    BranchTerminalLogged st' log' := by
  obtain ⟨ext, hext⟩ := hext
  obtain ⟨tail, htaileq, hmem⟩ := htail
  intro t ht
  rw [htaileq] at ht
  rcases List.mem_append.mp ht with h | h
  · rw [hext]
    exact TerminalLogged_append _ _ _ (hinv t h)
  · exfalso
    have hn := hmem _ h
    rcases hnode with he | he <;> cases t <;> simp [BranchTag.nodeId, he] at hn

/-- `roadmap` stays outside `completed_nodes` when only other ids are added. -/
theorem roadmap_notin_carry (cn tail : List String)
    (hro : "roadmap" ∉ cn) (hmem : ∀ n ∈ tail, n ≠ "roadmap") :
    "roadmap" ∉ cn ++ tail := by
  intro h
  rcases List.mem_append.mp h with h | h
  · exact hro h
  · exact hmem _ h rfl

/-- C3: in any run whose roadmap node begins executing (it is not yet in
`completed_nodes`), provided every branch already marked completed has a
terminal row in the incoming log (vacuously true for a fresh run), the final
transition log holds roadmap's RUNNING row at an index strictly greater than
the index of a terminal (completed or failed) row of each of the three
branches — the fan-in barrier ordering.  An aborted run (`FanInHolds` of an
error) never reached the roadmap node. -/
theorem C3_fan_in_ordering (env : FlowEnv σ) (order : List BranchTag)
    (st : FlowState σ) (log : FlowLog σ)
    (horder : ∀ t : BranchTag, t ∈ order)
    (hroadmap : "roadmap" ∉ st.completed_nodes)
    (hpre : BranchTerminalLogged st log) :
    FanInHolds (runFlow env order st log) := by
  cases h1 : validate_request_and_state env st log with
  | error e =>
    have hflow : runFlow env order st log = Except.error e := by
      unfold runFlow
      rw [h1]
    rw [hflow]
    exact trivial
  | ok p1 =>
    obtain ⟨st1, log1, ret1⟩ := p1
    obtain ⟨hext1, htail1⟩ := validate_ok_spec env st log st1 log1 ret1 h1
    have hinv1 : BranchTerminalLogged st1 log1 :=
      BranchTerminalLogged_carry st st1 log log1 "start" (Or.inl rfl) hpre hext1 htail1
    have hro1 : "roadmap" ∉ st1.completed_nodes := by
      obtain ⟨tail, ht, hm⟩ := htail1
      rw [ht]
      exact roadmap_notin_carry _ _ hroadmap (fun n hn => by rw [hm n hn]; simp)
    cases h2 : run_scanner_stage env st1 log1 with
    | error e =>
      have hflow : runFlow env order st log = Except.error e := by
        unfold runFlow
        rw [h1]
        simp only [h2]
      rw [hflow]
      exact trivial
    | ok p2 =>
      obtain ⟨st2, log2, out2⟩ := p2
      obtain ⟨hext2, htail2⟩ := scanner_ok_spec env st1 log1 st2 log2 out2 h2
      have hinv2 : BranchTerminalLogged st2 log2 :=
        BranchTerminalLogged_carry st1 st2 log1 log2 "scanner" (Or.inr rfl) hinv1
          hext2 htail2
      have hro2 : "roadmap" ∉ st2.completed_nodes := by
        obtain ⟨tail, ht, hm⟩ := htail2
        rw [ht]
        exact roadmap_notin_carry _ _ hro1 (fun n hn => by rw [hm n hn]; simp)
      cases h3 : runBranchList env order st2 log2 with
      | error e =>
        have hflow : runFlow env order st log = Except.error e := by
          unfold runFlow
          rw [h1]
          simp only [h2, h3]
        rw [hflow]
        exact trivial
      | ok p3 =>
        obtain ⟨st3, log3⟩ := p3
        have hflow : runFlow env order st log =
            Except.ok ((run_roadmap_trigger env st3 log3).1,
              (run_roadmap_trigger env st3 log3).2.1) := by
          unfold runFlow
          rw [h1]
          simp only [h2, h3]
        rw [hflow]
        obtain ⟨_hinv3, ⟨ext3, hext3⟩, ⟨tail3, htail3, htail3mem⟩, hterm3⟩ :=
          runBranchList_spec env order st2 log2 st3 log3 h3 hinv2
        have hro3 : "roadmap" ∉ st3.completed_nodes := by
          rw [htail3]
          refine roadmap_notin_carry _ _ hro2 ?_
          intro n hn
          obtain ⟨t, ht⟩ := htail3mem n hn
          rw [ht]
          cases t <;> simp [BranchTag.nodeId]
        obtain ⟨⟨rrec, hr, hrnode, hrstate⟩, hkeep⟩ :=
          roadmap_trigger_log_spec env st3 log3 hro3
        show roadmapAfterBranchTerminals
          (run_roadmap_trigger env st3 log3).2.1.transitions
        refine ⟨log3.transitions.length, rrec, hr, hrnode, hrstate, ?_⟩
        intro t
        obtain ⟨i, rec, hi, hrec⟩ := hterm3 t (horder t)
        obtain ⟨hlt, _⟩ := List.getElem?_eq_some_iff.mp hi
        exact ⟨i, hlt, rec, hkeep i rec hi, hrec⟩

/-- Witness for C3: a fresh run (one branch even failing) satisfies the fan-in
ordering of its final transition log. -/
theorem C3_fan_in_ordering_witness :
    FanInHolds (runFlow envSecFail
      [BranchTag.architecture, BranchTag.security, BranchTag.performance]
      (kickoffState Unit { run_id := "r1", schema_version := "1.0.0" } "p")
      (emptyLog Unit)) :=
  C3_fan_in_ordering _ _ _ _ (fun t => by cases t <;> simp) (by decide)
    (fun t ht => absurd ht (List.not_mem_nil _))

/-! ## C1: roadmap synthesis pipeline -/

/-- The lexicographic key comparison is transitive. -/
theorem findingLe_trans (a b c : BaseFinding) (hab : findingLe a b)
    (hbc : findingLe b c) : findingLe a c := by
  simp only [findingLe, keyTupleLe, decide_eq_true_eq] at hab hbc ⊢
  rcases hab with h | ⟨h1, h2⟩ <;> rcases hbc with h' | ⟨h1', h2'⟩
  · exact Or.inl (h.trans h')
  · exact Or.inl (h1' ▸ h)
  · exact Or.inl (h1 ▸ h')
  · exact Or.inr ⟨h1.trans h1', h2.trans h2'⟩

/-- The lexicographic key comparison is total. -/
theorem findingLe_total (a b : BaseFinding) : findingLe a b || findingLe b a := by
  simp only [findingLe, keyTupleLe, Bool.or_eq_true, decide_eq_true_eq]
  rcases Nat.lt_trichotomy (findingSortKey a).1 (findingSortKey b).1 with h | h | h
  · exact Or.inl (Or.inl h)
  · rcases le_total (findingSortKey a).2 (findingSortKey b).2 with h2 | h2
    · exact Or.inl (Or.inr ⟨h, h2⟩)
    · exact Or.inr (Or.inr ⟨h.symm, h2⟩)
  · exact Or.inr (Or.inl h)

/-- Equal sort keys compare `≤` in both directions. -/
theorem findingLe_of_key_eq (f g : BaseFinding)
    (h : findingSortKey f = findingSortKey g) : findingLe f g := by
  simp [findingLe, keyTupleLe, h]

/-- C1: `synthesize_roadmap` maps the first 10 entries of a list `L` that is a
permutation of exactly the confirmed/suspected findings of the
architecture-security-performance concatenation, is sorted by the key
`(severity_rank, 1 - confidence)` with Critical=0 < High=1 < Medium=2 < Low=3,
and preserves input order on equal keys (stability — no secondary tie-break);
every produced item carries priority P0 for Critical/High, P1 for Medium, P2
for Low, the fixed timeline bucket of its priority, and `depends_on` equal to
the singleton of its source finding's id. -/
theorem C1_synthesize_roadmap_pipeline (architecture_output : ArchitectureAgentOutput)
    (security_output : SecurityAgentOutput)
    (performance_output : PerformanceAgentOutput) :
    ∃ L : List BaseFinding,
      synthesize_roadmap architecture_output security_output performance_output =
        (L.take 10).map roadmapItemOfFinding ∧
      L.Perm ((architecture_output.findings ++ security_output.findings ++
        performance_output.findings).filter fun f =>
          f.status = FindingStatus.confirmed ∨ f.status = FindingStatus.suspected) ∧
      L.Pairwise (fun f g => findingLe f g = true) ∧
      (∀ f g : BaseFinding,
        List.Sublist [f, g] ((architecture_output.findings ++
          security_output.findings ++ performance_output.findings).filter fun x =>
            x.status = FindingStatus.confirmed ∨ x.status = FindingStatus.suspected) →
        findingSortKey f = findingSortKey g → List.Sublist [f, g] L) ∧
      (∀ f : BaseFinding,
        (roadmapItemOfFinding f).depends_on = [f.id] ∧
        ((f.severity = Severity.critical ∨ f.severity = Severity.high) →
          (roadmapItemOfFinding f).priority = Priority.P0 ∧
          (roadmapItemOfFinding f).timeline_bucket = "immediate_1_2_days") ∧
        (f.severity = Severity.medium →
          (roadmapItemOfFinding f).priority = Priority.P1 ∧
          (roadmapItemOfFinding f).timeline_bucket = "short_term_1_2_weeks") ∧
        (f.severity = Severity.low →
          (roadmapItemOfFinding f).priority = Priority.P2 ∧
          (roadmapItemOfFinding f).timeline_bucket = "medium_term_1_2_months")) := by
  refine ⟨((architecture_output.findings ++ security_output.findings ++
      performance_output.findings).filter fun f : BaseFinding =>
        f.status = FindingStatus.confirmed ∨
          f.status = FindingStatus.suspected).mergeSort findingLe,
    rfl, List.mergeSort_perm _ _, ?_, ?_, ?_⟩
  · exact List.sorted_mergeSort findingLe_trans findingLe_total _
  · intro f g hsub hkey
    exact List.pair_sublist_mergeSort findingLe_trans findingLe_total
      (findingLe_of_key_eq f g hkey) hsub
  · intro f
    refine ⟨rfl, ?_, ?_, ?_⟩
    · intro h
      rcases h with h | h <;> simp [roadmapItemOfFinding, h]
    · intro h
      simp [roadmapItemOfFinding, h]
    · intro h
      simp [roadmapItemOfFinding, h]
